import Mathlib

/-!
# Verification of the 0xguard Judge verification & payout engine

Shallow embedding of the Judge agent's verification / bounty-payout pipeline
(`src/agent/judge_agent.py`) and of the Midnight proof-submission client
(`src/agent/midnight_client.py`).  Time is modelled as integer seconds
(`Int`); wall-clock dates as `now / 86400`.  Python dictionaries become
association lists, Python sets become duplicate-free lists, and the external
services (Unibase payment, Membase audit log, Midnight HTTP API) are modelled
as explicit outcome oracles passed to each call.
-/

namespace Guard

/-- Is `pat` a contiguous segment starting somewhere in `l`? -/
def charsContain (pat : List Char) : List Char → Bool
  | [] => pat.isEmpty
  | c :: rest => pat.isPrefixOf (c :: rest) || charsContain pat rest

/-- Python's substring test `pat in s`. -/
def strContains (s pat : String) : Bool :=
  charsContain pat.data s.data

/-- Python `s.lower()` (per-character lowercasing). -/
def strToLower (s : String) : String :=
  ⟨s.data.map Char.toLower⟩

/-- Lookup in a Python-style dict modelled as an association list
(`d.get(k)`); returns the first binding (keys are unique in a dict). -/
def dictFind {α : Type} (m : List (String × α)) (k : String) : Option α :=
  match m with
  | [] => none
  | (k', v) :: rest => if k' == k then some v else dictFind rest k

/-- `m[k] = v` on a Python-style dict: replace the binding in place, or
append a fresh one. -/
def dictInsert {α : Type} (m : List (String × α)) (k : String) (v : α) :
    List (String × α) :=
  match m with
  | [] => [(k, v)]
  | (k', v') :: rest =>
      if k' == k then (k, v) :: rest else (k', v') :: dictInsert rest k v

/-!
## Exploit details

`exploit_details` is a Python `dict`.  The fields the Judge reads are the
string-valued `"exploit_type"` / `"payload"` and the `"timestamp"` field,
which holds an ISO-8601 string that the code parses with
`datetime.fromisoformat` (silently skipping the staleness check when parsing
fails).  The embedding keeps a parseable timestamp as the `time` constructor
(its value being the parsed epoch seconds) and any other value as `str`
(for which parsing fails and the staleness check is skipped).
-/

inductive ExploitVal where
  | str (s : String)
  | time (t : Int)
deriving DecidableEq, Repr

abbrev ExploitDetails := List (String × ExploitVal)

def detailsGet (d : ExploitDetails) (k : String) : Option ExploitVal :=
  dictFind d k

/-- Insertion into a key-sorted association list (ascending key order). -/
def insertByKey (p : String × ExploitVal) : ExploitDetails → ExploitDetails
  | [] => [p]
  | q :: rest => if p.1 ≤ q.1 then p :: q :: rest else q :: insertByKey p rest

/-- `sorted(d.items())`: the canonical key ordering used by
`json.dumps(..., sort_keys=True)`. -/
def sortByKey : ExploitDetails → ExploitDetails
  | [] => []
  | p :: rest => insertByKey p (sortByKey rest)

def serializeVal : ExploitVal → String
  | .str s => "\"" ++ s ++ "\""
  | .time t => "\"" ++ toString t ++ "\""

/-- Canonical serialization of the exploit-details dict:
`json.dumps(exploit_details, sort_keys=True)`. -/
def serializeDetails (d : ExploitDetails) : String :=
  "\x7b" ++
    String.intercalate ", "
      ((sortByKey d).map (fun p => "\"" ++ p.1 ++ "\": " ++ serializeVal p.2)) ++
  "\x7d"

/-- Embeds `JudgeAgent._hash_exploit`: the code computes the SHA-256
hex digest of the canonical serialization.  SHA-256 is a fixed deterministic
function of the serialization, so the replay set's behaviour on identical
`exploit_details` is captured by the serialization itself; the embedding
uses the canonical serialization as the digest. -/
def hash_exploit (d : ExploitDetails) : String :=
  serializeDetails d

/-!
## Judge configuration and state (fields of `JudgeAgent.__init__`)
-/

structure JudgeConfig where
  agent_id : String
  secret_key : String
  require_secret_key : Bool
  prevent_replay : Bool
  max_age_minutes : Int
  min_severity : String
  bounty_rates : List (String × Int)
  max_bounties_per_hour : Nat
  cooldown_seconds : Int
  max_single_bounty : Int
  daily_cap : Int
  unibase_enabled : Bool
  membase_enabled : Bool

/-- The defaults hard-coded in `JudgeAgent.__init__`. -/
def defaultConfig : JudgeConfig where
  agent_id := "judge_agent_default"
  secret_key := "fetch_ai_2024"
  require_secret_key := true
  prevent_replay := true
  max_age_minutes := 5
  min_severity := "low"
  bounty_rates := [("low", 50), ("medium", 150), ("high", 300), ("critical", 500)]
  max_bounties_per_hour := 10
  cooldown_seconds := 120
  max_single_bounty := 1000
  daily_cap := 10000
  unibase_enabled := true
  membase_enabled := true

/-- `bounty_rates.get(severity, 0)`. -/
def ratesGet (rates : List (String × Int)) (k : String) : Int :=
  ((rates.find? (fun p => p.1 == k)).map Prod.snd).getD 0

/-- Per-submitter entry of `self.rate_limits`. -/
structure RateLimitEntry where
  count : Nat
  window_start : Int
  last_submission : Option Int
deriving DecidableEq, Repr

/-- Entry of `self.bounty_history`. -/
structure BountyRecord where
  red_team_id : String
  bounty_amount : Int
  tx_hash : String
  timestamp : Int
  exploit_data : ExploitDetails
deriving DecidableEq, Repr

/-- An event handed to `log_to_membase` (only the fields the payout path
fills in). -/
structure MembaseEvent where
  event_type : String
  red_team_id : String
  bounty_amount : Option Int
  tx_hash : Option String
deriving DecidableEq, Repr

/-- Entry of `self.attack_history[red_team_id]`. -/
structure AttackRecord where
  target_id : String
  exploit_type : String
  payload : String
  timestamp : Int
deriving DecidableEq, Repr

structure JudgeState where
  verified_exploits : List String
  rate_limits : List (String × RateLimitEntry)
  attack_history : List (String × List AttackRecord)
  bounty_history : List BountyRecord
  membase_events : List MembaseEvent
  daily_bounty_total : Int
  daily_reset_date : Int
deriving Repr

/-- Calendar date of a wall-clock instant (whole days since the epoch). -/
def dateOf (now : Int) : Int := now / 86400

/-- Fresh `JudgeAgent` state as built by `__init__` at time `now`. -/
def initialState (now : Int) : JudgeState where
  verified_exploits := []
  rate_limits := []
  attack_history := []
  bounty_history := []
  membase_events := []
  daily_bounty_total := 0
  daily_reset_date := dateOf now

/-- `JudgeAgent._reset_daily_tracking`. -/
def reset_daily_tracking (st : JudgeState) (now : Int) : JudgeState :=
  if dateOf now > st.daily_reset_date then
    { st with daily_bounty_total := 0, daily_reset_date := dateOf now }
  else st

/-- The hourly-window reset of `_check_rate_limit`:
`if now - window_start >= 3600: count = 0; window_start = now`. -/
def window_advance (e0 : RateLimitEntry) (now : Int) : RateLimitEntry :=
  if now - e0.window_start ≥ 3600 then { e0 with count := 0, window_start := now }
  else e0

/-- The `(allowed, reason)` verdict of `_check_rate_limit` on the
window-advanced entry: hourly count first, then cooldown (a stored
`last_submission` datetime is always truthy). -/
def rate_verdict (cfg : JudgeConfig) (e1 : RateLimitEntry) (now : Int) :
    Bool × String :=
  if e1.count ≥ cfg.max_bounties_per_hour then
    (false,
     "Rate limit exceeded: " ++ toString e1.count ++ "/" ++
       toString cfg.max_bounties_per_hour ++ " bounties per hour")
  else
    match e1.last_submission with
    | some ls =>
        if now - ls < cfg.cooldown_seconds then
          (false,
           "Cooldown active: " ++ toString (cfg.cooldown_seconds - (now - ls)) ++
             " seconds remaining")
        else (true, "OK")
    | none => (true, "OK")

/-- `JudgeAgent._check_rate_limit`.  The Python method mutates
`self.rate_limits` (lazy entry creation and the hourly-window reset persist
whatever the verdict), so the embedding returns the updated state alongside
`(allowed, reason)`. -/
def check_rate_limit (cfg : JudgeConfig) (st : JudgeState) (now : Int)
    (red_team_id : String) : Bool × String × JudgeState :=
  let e0 := (dictFind st.rate_limits red_team_id).getD ⟨0, now, none⟩
  let e1 := window_advance e0 now
  let v := rate_verdict cfg e1 now
  (v.1, v.2,
   { st with rate_limits := dictInsert st.rate_limits red_team_id e1 })

/-- `JudgeAgent._update_rate_limit` (the rate-limit commit after a
successful payout). -/
def update_rate_limit (st : JudgeState) (now : Int) (red_team_id : String) :
    JudgeState :=
  let e0 := (dictFind st.rate_limits red_team_id).getD ⟨0, now, none⟩
  let e1 : RateLimitEntry :=
    { e0 with count := e0.count + 1, last_submission := some now }
  { st with rate_limits := dictInsert st.rate_limits red_team_id e1 }

/-!
## Exploit verification (`JudgeAgent.verify_exploit`)
-/

structure AttackResult where
  success : Bool
  secret_key : Option String
  target_id : String
  exploit_details : ExploitDetails
deriving DecidableEq, Repr

structure VerificationResult where
  is_valid : Bool
  severity : String
  bounty_amount : Int
  reason : String
deriving DecidableEq, Repr

/-- The SECRET_KEY stage of `verify_exploit`: `some v` means the stage
rejects with verdict `v`.  Python's truthiness check
`if not attack_result.secret_key` treats both `None` and `""` as missing.
The code wraps the two key values of the mismatch reason in ASCII
apostrophes, written `\x27` here. -/
def checkSecretKey (cfg : JudgeConfig) (ar : AttackResult) :
    Option VerificationResult :=
  if cfg.require_secret_key then
    match ar.secret_key with
    | none => some ⟨false, "low", 0, "SECRET_KEY not extracted"⟩
    | some s =>
        if s = "" then some ⟨false, "low", 0, "SECRET_KEY not extracted"⟩
        else if s ≠ cfg.secret_key then
          some ⟨false, "low", 0,
            "SECRET_KEY mismatch: expected \x27" ++ cfg.secret_key ++
              "\x27, got \x27" ++ s ++ "\x27"⟩
        else none
  else none

/-- `JudgeAgent._determine_severity` (case-insensitive substring matching on
`exploit_details.get("exploit_type", "")`; unknown types default to high). -/
def determine_severity (exploit_details : ExploitDetails) : String :=
  let exploit_type :=
    strToLower (match detailsGet exploit_details "exploit_type" with
     | some (.str s) => s
     | _ => "")
  if strContains exploit_type "secret_key" || strContains exploit_type "credential"
    then "critical"
  else if strContains exploit_type "sql" || strContains exploit_type "injection"
    then "high"
  else if strContains exploit_type "xss" || strContains exploit_type "csrf"
    then "medium"
  else "high"

def severity_levels : List String := ["low", "medium", "high", "critical"]

/-- `severity_levels.index(s)` (all severities occurring in the code are
members of the list). -/
def severityIndex (s : String) : Nat := severity_levels.indexOf s

/-- The staleness test: `some age` (seconds) when the timestamp is present,
parseable, and older than `max_age_minutes`; `none` otherwise (including
the `except: pass` branch for unparseable timestamps).  The comparison
`age_minutes > max_age_minutes` on exact fractional minutes is equivalent to
`age_seconds > max_age_minutes * 60`. -/
def exploit_age_exceeded (cfg : JudgeConfig) (now : Int)
    (d : ExploitDetails) : Option Int :=
  match detailsGet d "timestamp" with
  | some (.time t) =>
      if now - t > cfg.max_age_minutes * 60 then some (now - t) else none
  | _ => none

/-- The severity / bounty-amount tail of `verify_exploit` (runs after the
replay set has been updated, so it returns the state unchanged).  The code
prints the age with one decimal digit; the embedding renders whole minutes
(`age / 60`), which does not affect any verdict. -/
def verify_severity_stage (cfg : JudgeConfig) (st : JudgeState)
    (ar : AttackResult) : VerificationResult × JudgeState :=
  let severity := determine_severity ar.exploit_details
  if severityIndex severity < severityIndex cfg.min_severity then
    (⟨false, severity, 0,
      "Severity \x27" ++ severity ++ "\x27 below minimum \x27" ++
        cfg.min_severity ++ "\x27"⟩, st)
  else
    let bounty0 := ratesGet cfg.bounty_rates severity
    let bounty := if bounty0 > cfg.max_single_bounty then cfg.max_single_bounty
      else bounty0
    (⟨true, severity, bounty, "Exploit verified successfully"⟩, st)

/-- Stages of `verify_exploit` after the replay set has been mutated:
staleness check, then severity / bounty. -/
def verify_after_replay (cfg : JudgeConfig) (st : JudgeState) (now : Int)
    (ar : AttackResult) : VerificationResult × JudgeState :=
  match exploit_age_exceeded cfg now ar.exploit_details with
  | some age =>
      (⟨false, "low", 0,
        "Attack too old: " ++ toString (age / 60) ++ " minutes (max: " ++
          toString cfg.max_age_minutes ++ " minutes)"⟩, st)
  | none => verify_severity_stage cfg st ar

/-- `JudgeAgent.verify_exploit`.  The checks run in the code's order:
success flag, SECRET_KEY, replay (whose `verified_exploits.add` is a side
effect that persists into all later stages, including later rejections),
staleness, severity floor, bounty rate capped at `max_single_bounty`. -/
def verify_exploit (cfg : JudgeConfig) (st : JudgeState) (now : Int)
    (ar : AttackResult) : VerificationResult × JudgeState :=
  if ar.success = false then
    (⟨false, "low", 0, "Attack was not successful"⟩, st)
  else
    match checkSecretKey cfg ar with
    | some v => (v, st)
    | none =>
        if (cfg.prevent_replay &&
            st.verified_exploits.contains (hash_exploit ar.exploit_details)) = true then
          (⟨false, "low", 0,
            "Duplicate exploit submission (replay attack detected)"⟩, st)
        else
          let st' := if cfg.prevent_replay then
              { st with verified_exploits :=
                  hash_exploit ar.exploit_details :: st.verified_exploits }
            else st
          verify_after_replay cfg st' now ar

/-!
## Bounty payout (`JudgeAgent.trigger_bounty`)

The external gasless-payment call `save_bounty_token` is modelled by an
oracle `Nat → Option String`: `oracle k` is the outcome of the `k`-th call
made in this payout (`none` = the call raised an exception, so `tx_hash`
keeps its previous value; `some tx` = the call returned `tx`).
-/

structure BountyResult where
  success : Bool
  tx_hash : String
  bounty_paid : Int
  recipient : String
  timestamp : Int
deriving DecidableEq, Repr

/-- Python truthiness + placeholder test used by the retry loop and the
final check: `tx_hash and tx_hash != "0x0000..."`. -/
def isGoodTx (tx : String) : Bool :=
  tx ≠ "" && tx ≠ "0x0000..."

/-- The `while retry_count < max_retries` loop of `trigger_bounty`.
`k` counts calls made so far (when `unibase_enabled` is false no call is
made but `retry_count` still advances), `fuel` is the remaining retry
budget, and `tx` is the current value of `tx_hash`.  The 1-second
`asyncio.sleep` between attempts has no observable effect on the state and
is not modelled. -/
def bountyLoop (enabled : Bool) (oracle : Nat → Option String) :
    Nat → Nat → String → String
  | _, 0, tx => tx
  | k, fuel + 1, tx =>
      if enabled then
        match oracle k with
        | some t => if isGoodTx t then t else bountyLoop enabled oracle (k + 1) fuel t
        | none => bountyLoop enabled oracle (k + 1) fuel tx
      else bountyLoop enabled oracle k fuel tx

/-- `JudgeAgent.log_to_membase`: returns `False` without recording when
Membase is disabled; otherwise formats the event and hands it to the
external `save_mcp_message` sink.  `membase_events` records the events
handed to the sink; the sink's own (external, best-effort) delivery result
is abstracted as the returned flag. -/
def log_to_membase (cfg : JudgeConfig) (st : JudgeState) (ev : MembaseEvent) :
    JudgeState × Bool :=
  if cfg.membase_enabled = false then (st, false)
  else ({ st with membase_events := st.membase_events ++ [ev] }, true)

/-- The commit tail of `trigger_bounty` after a good transaction reference
was obtained: rate-limit commit, daily-budget update, history append
truncated to the 1000 most recent records, Membase payout event. -/
def payout_commit (cfg : JudgeConfig) (st : JudgeState) (now : Int)
    (red_team_id : String) (amount : Int) (exploit_data : ExploitDetails)
    (tx : String) : BountyResult × JudgeState :=
  let st3 := update_rate_limit st now red_team_id
  let st4 := { st3 with daily_bounty_total := st3.daily_bounty_total + amount }
  let hist0 := st4.bounty_history ++ [⟨red_team_id, amount, tx, now, exploit_data⟩]
  let hist := if hist0.length > 1000 then hist0.drop (hist0.length - 1000) else hist0
  let st5 := { st4 with bounty_history := hist }
  let st6 := (log_to_membase cfg st5 ⟨"payout", red_team_id, some amount, some tx⟩).1
  (⟨true, tx, amount, red_team_id, now⟩, st6)

/-- `JudgeAgent.trigger_bounty`: daily reset, daily-cap check (shrink to the
remaining budget or reject outright), rate-limit check, the 3-attempt
Unibase retry loop, and — only on success — the commit tail.  All failure
returns build `BountyResult(success=False, tx_hash="", bounty_paid=0, ...)`
and leave the state as produced by the checks already run. -/
def trigger_bounty (cfg : JudgeConfig) (st : JudgeState) (now : Int)
    (red_team_id : String) (bounty_amount : Int)
    (exploit_data : ExploitDetails) (oracle : Nat → Option String) :
    BountyResult × JudgeState :=
  let st1 := reset_daily_tracking st now
  if st1.daily_bounty_total + bounty_amount > cfg.daily_cap ∧
      cfg.daily_cap - st1.daily_bounty_total ≤ 0 then
    (⟨false, "", 0, red_team_id, now⟩, st1)
  else
    let amount := if st1.daily_bounty_total + bounty_amount > cfg.daily_cap then
        cfg.daily_cap - st1.daily_bounty_total
      else bounty_amount
    let c := check_rate_limit cfg st1 now red_team_id
    if c.1 = false then
      (⟨false, "", 0, red_team_id, now⟩, c.2.2)
    else
      let tx := bountyLoop cfg.unibase_enabled oracle 0 3 ""
      if isGoodTx tx = false then
        (⟨false, "", 0, red_team_id, now⟩, c.2.2)
      else
        payout_commit cfg c.2.2 now red_team_id amount exploit_data tx

/-- One `trigger_bounty` invocation (arguments plus the payment-service
oracle for that call). -/
structure BountyCall where
  now : Int
  red_team_id : String
  bounty_amount : Int
  exploit_data : ExploitDetails
  oracle : Nat → Option String

/-- A sequence of `trigger_bounty` calls, threading the Judge state. -/
def runBounties (cfg : JudgeConfig) (st : JudgeState) :
    List BountyCall → JudgeState
  | [] => st
  | c :: cs =>
      runBounties cfg
        (trigger_bounty cfg st c.now c.red_team_id c.bounty_amount
          c.exploit_data c.oracle).2 cs

/-!
## Statistics (`JudgeAgent.get_statistics`)
-/

structure Statistics where
  agent_id : String
  total_attacks_monitored : Nat
  total_bounties_paid : Nat
  total_bounty_amount : Int
  daily_bounty_total : Int
  daily_cap_remaining : Int
  unique_red_teams : Nat
  verified_exploits : Nat
deriving DecidableEq, Repr

/-- `JudgeAgent.get_statistics`: the bounty totals are derived from the
(truncated) `bounty_history` list; `daily_bounty_total` is the separately
tracked counter. -/
def get_statistics (cfg : JudgeConfig) (st : JudgeState) : Statistics where
  agent_id := cfg.agent_id
  total_attacks_monitored := (st.attack_history.map (fun p => p.2.length)).sum
  total_bounties_paid := st.bounty_history.length
  total_bounty_amount := (st.bounty_history.map (fun b => b.bounty_amount)).sum
  daily_bounty_total := st.daily_bounty_total
  daily_cap_remaining := cfg.daily_cap - st.daily_bounty_total
  unique_red_teams := st.attack_history.length
  verified_exploits := st.verified_exploits.length

/-!
## Midnight proof-submission client (`src/agent/midnight_client.py`)

The HTTP layer is modelled by outcome oracles: each attempt of the
`/api/submit-audit` retry loop either yields a parsed response
(`resp status body`) or raises (`exn msg`, covering `httpx.TimeoutException`,
`httpx.ConnectError` and the generic handler; `msg` is the message the
handler formats into `last_error`).  `NetEvent` traces the network requests
made and the back-off sleeps taken.
-/

/-- Parsed JSON body of a `/api/submit-audit` response.  `detail` is the
`detail` field consulted on HTTP 400 (`none` = the body is not JSON or has
no such field, i.e. the `except` fallback).  `proof_hash` is consulted only
by the simulation-path loop. -/
structure SubmitBody where
  success : Bool
  error : Option String
  transaction_id : Option String
  proof_hash : Option String
  block_height : Option Int
deriving DecidableEq, Repr

inductive AttemptOutcome where
  | resp (status : Nat) (body : SubmitBody) (detail : Option String)
  | exn (msg : String)
deriving DecidableEq, Repr

structure SubmitProofResult where
  success : Bool
  proof_hash : Option String
  transaction_id : Option String
  block_height : Option Int
  error : Option String
deriving DecidableEq, Repr

inductive NetEvent where
  | healthGet
  | initPost
  | submitPost
  | sleepFor (d : ℚ)
deriving DecidableEq, Repr

/-- `RETRY_DELAY_BASE`. -/
def RETRY_DELAY_BASE : ℚ := 1

/-- `RETRY_JITTER`. -/
def RETRY_JITTER : ℚ := 1 / 2

/-- The delay slept by `_sleep_with_jitter(base_delay, attempt)`:
`base_delay * 2 ** attempt` plus the random jitter drawn from
`[0, RETRY_JITTER * delay]`; the draw is supplied by the environment. -/
def sleep_delay (base : ℚ) (attempt : Nat) (jitter : ℚ) : ℚ :=
  base * 2 ^ attempt + jitter

/-- Python `f"{last_error}"` where `last_error` starts as `None`. -/
def renderLastError : Option String → String
  | none => "None"
  | some m => m

/-- `proof_hash = data.get("transaction_id")` with the deterministic
fallback `f"zk_proof_{audit_id[:32]}"` when the field is missing or empty
(`if not proof_hash`). -/
def proofHashOf (audit_id : String) (txid : Option String) : String :=
  match txid with
  | some s => if s = "" then "zk_proof_" ++ audit_id.take 32 else s
  | none => "zk_proof_" ++ audit_id.take 32

/-- The `for attempt in range(max_retries)` retry loop of `submit_proof`.
`attempt` is the current attempt index and `remaining` the number of
attempts still to run (including the current one); the loop is entered with
`attempt = 0, remaining = max_retries, last_error = None`.  Terminal
outcomes: a 200 body with `success` (overall success), a 200 body whose
error mentions `threshold`/`invalid` (client error, no retry), and HTTP 400
(client error, no retry).  5xx, any other status, and exceptions update
`last_error` and retry after `_sleep_with_jitter(RETRY_DELAY_BASE, attempt)`. -/
def submit_loop (audit_id : String) (outcomes : Nat → AttemptOutcome)
    (jitter : Nat → ℚ) (max_retries : Nat) :
    Nat → Nat → Option String → SubmitProofResult × List NetEvent
  | _, 0, lastErr =>
      (⟨false, none, none, none,
        some ("Failed after " ++ toString max_retries ++ " attempts. Last error: " ++
          renderLastError lastErr)⟩, [])
  | attempt, remaining + 1, _lastErr =>
      let step : SubmitProofResult ⊕ Option String :=
        match outcomes attempt with
        | .resp status body detail =>
            if status = 200 then
              if body.success then
                let ph := proofHashOf audit_id body.transaction_id
                .inl ⟨true, some ph, some ph, body.block_height, none⟩
              else
                let e := body.error.getD "Unknown error from Midnight API"
                if strContains (strToLower e) "threshold" || strContains (strToLower e) "invalid" then
                  .inl ⟨false, none, none, none, some e⟩
                else .inr (some e)
            else if status = 400 then
              .inl ⟨false, none, none, none, some (detail.getD "HTTP 400")⟩
            else if status ≥ 500 then
              .inr (some ("Server error: HTTP " ++ toString status))
            else
              .inr (some ("Unexpected HTTP " ++ toString status))
        | .exn msg => .inr (some msg)
      match step with
      | .inl result => (result, [.submitPost])
      | .inr newLast =>
          match remaining with
          | 0 =>
              (⟨false, none, none, none,
                some ("Failed after " ++ toString max_retries ++
                  " attempts. Last error: " ++ renderLastError newLast)⟩,
               [.submitPost])
          | r + 1 =>
              let rest := submit_loop audit_id outcomes jitter max_retries
                (attempt + 1) (r + 1) newLast
              (rest.1,
               .submitPost ::
                 .sleepFor (sleep_delay RETRY_DELAY_BASE attempt (jitter attempt)) ::
                 rest.2)

/-- `_simulate_proof_generation`: the same retry loop posting to
`/api/submit-audit`; on success the hash falls back through
`transaction_id or proof_hash` before the deterministic fallback, and the
exhaustion message reads `"Proof submission failed after ..."`. -/
def simulate_loop (audit_id : String) (outcomes : Nat → AttemptOutcome)
    (jitter : Nat → ℚ) (max_retries : Nat) :
    Nat → Nat → Option String → SubmitProofResult × List NetEvent
  | _, 0, lastErr =>
      (⟨false, none, none, none,
        some ("Proof submission failed after " ++ toString max_retries ++
          " attempts. Last error: " ++ renderLastError lastErr)⟩, [])
  | attempt, remaining + 1, _lastErr =>
      let step : SubmitProofResult ⊕ Option String :=
        match outcomes attempt with
        | .resp status body detail =>
            if status = 200 then
              if body.success then
                let tx0 := match body.transaction_id with
                  | some s => if s = "" then body.proof_hash else some s
                  | none => body.proof_hash
                let ph := proofHashOf audit_id tx0
                .inl ⟨true, some ph, some ph, body.block_height, none⟩
              else
                let e := body.error.getD "Unknown error from Midnight API"
                if strContains (strToLower e) "threshold" || strContains (strToLower e) "invalid" then
                  .inl ⟨false, none, none, none, some e⟩
                else .inr (some e)
            else if status = 400 then
              .inl ⟨false, none, none, none, some (detail.getD "HTTP 400")⟩
            else if status ≥ 500 then
              .inr (some ("Server error: HTTP " ++ toString status))
            else
              .inr (some ("Unexpected HTTP " ++ toString status))
        | .exn msg => .inr (some msg)
      match step with
      | .inl result => (result, [.submitPost])
      | .inr newLast =>
          match remaining with
          | 0 =>
              (⟨false, none, none, none,
                some ("Proof submission failed after " ++ toString max_retries ++
                  " attempts. Last error: " ++ renderLastError newLast)⟩,
               [.submitPost])
          | r + 1 =>
              let rest := simulate_loop audit_id outcomes jitter max_retries
                (attempt + 1) (r + 1) newLast
              (rest.1,
               .submitPost ::
                 .sleepFor (sleep_delay RETRY_DELAY_BASE attempt (jitter attempt)) ::
                 rest.2)

/-!
### Health check and contract initialization
-/

/-- The module-level `_health_cache`.  `time.time()` instants are modelled
in whole seconds (the 30-second TTL needs no finer resolution). -/
structure HealthCache where
  last_check : Option Int
  is_healthy : Bool
  contract_address : Option String
  cache_ttl : Int
deriving DecidableEq, Repr

/-- Outcome of a real `GET /health` probe: a parsed response
(`status` field string and optional `contract_address`) or an exception
(timeout / connect / generic, `msg` being the formatted error). -/
inductive HealthOutcome where
  | resp (code : Nat) (statusStr : String) (contract_address : Option String)
  | exn (msg : String)
deriving DecidableEq, Repr

structure HealthStatus where
  is_healthy : Bool
  initialized : Bool
  contract_address : Option String
  error : Option String
deriving DecidableEq, Repr

/-- The uncached path of `check_midnight_health`: perform the probe and
update the cache.  On exceptions the code updates `last_check` and
`is_healthy` but leaves the cached `contract_address` alone. -/
def health_probe_step (cache : HealthCache) (now : Int)
    (probe : HealthOutcome) : HealthStatus × HealthCache × List NetEvent :=
  match probe with
  | .resp 200 statusStr addr =>
      let healthy := statusStr == "healthy"
      (⟨healthy, addr.isSome, addr, none⟩,
       { cache with last_check := some now, is_healthy := healthy,
                    contract_address := addr },
       [.healthGet])
  | .resp code _ _ =>
      (⟨false, false, none, some ("Health check returned status " ++ toString code)⟩,
       { cache with last_check := some now, is_healthy := false,
                    contract_address := none },
       [.healthGet])
  | .exn msg =>
      (⟨false, false, none, some msg⟩,
       { cache with last_check := some now, is_healthy := false },
       [.healthGet])

/-- `check_midnight_health` (without `force_check`): serve from the cache
when the last probe is younger than the TTL, else probe for real. -/
def check_midnight_health (cache : HealthCache) (now : Int)
    (probe : HealthOutcome) : HealthStatus × HealthCache × List NetEvent :=
  match cache.last_check with
  | some t =>
      if now - t < cache.cache_ttl then
        (⟨cache.is_healthy, cache.contract_address.isSome,
          cache.contract_address, none⟩, cache, [])
      else health_probe_step cache now probe
  | none => health_probe_step cache now probe

/-- Outcome of `initialize_contract(mode="deploy")` as observed by
`submit_proof`: either it returns (updating the cached address) or it
raises, `msg` being `str(e)`. -/
inductive InitOutcome where
  | ok (addr : Option String)
  | raised (msg : String)
deriving DecidableEq, Repr

/-- The environment of one `submit_proof` call: module configuration plus
the outcomes of whichever external interactions the call performs. -/
structure MidnightEnv where
  simulation_mode : Bool
  now : Int
  health_probe : HealthOutcome
  init_outcome : InitOutcome
  submit_outcomes : Nat → AttemptOutcome
  jitter : Nat → ℚ

/-- `create_private_state`: the witness packs the UTF-8 bytes of the
exploit string truncated / zero-padded to exactly 64 bytes, plus the risk
score. -/
def create_private_state (exploit_bytes : List Nat) (risk_score : Int) :
    List Nat × Int :=
  let b := if exploit_bytes.length > 64 then exploit_bytes.take 64
    else exploit_bytes ++ List.replicate (64 - exploit_bytes.length) 0
  (b, risk_score)

/-- `submit_proof`: the below-threshold gate (an immediate structured
failure, before any network interaction), then either the simulation-mode
loop or health check → optional contract initialization → the retry loop.
The request body (audit id, auditor address, threshold, witness) is
assembled from the arguments exactly as in the source; its content is
absorbed into the outcome oracle and not inspected further here. -/
def submit_proof (env : MidnightEnv) (cache : HealthCache)
    (audit_id : String) (risk_score threshold : Int) (max_retries : Nat) :
    SubmitProofResult × List NetEvent :=
  if risk_score < threshold then
    (⟨false, none, none, none,
      some ("Risk score " ++ toString risk_score ++ " is below threshold " ++
        toString threshold)⟩, [])
  else if env.simulation_mode then
    simulate_loop audit_id env.submit_outcomes env.jitter max_retries 0
      max_retries none
  else
    let h := check_midnight_health cache env.now env.health_probe
    if h.1.is_healthy = false then
      (⟨false, none, none, none,
        some ("Midnight API is unavailable: " ++ (h.1.error.getD "Unknown error"))⟩,
       h.2.2)
    else
      let initStep : Option String × List NetEvent :=
        if h.1.initialized = false then
          match env.init_outcome with
          | .ok _ => (none, [.initPost])
          | .raised msg => (some ("Contract initialization failed: " ++ msg), [.initPost])
        else (none, [])
      match initStep with
      | (some err, ievs) => (⟨false, none, none, none, some err⟩, h.2.2 ++ ievs)
      | (none, ievs) =>
          let r := submit_loop audit_id env.submit_outcomes env.jitter
            max_retries 0 max_retries none
          (r.1, h.2.2 ++ ievs ++ r.2)

/-!
## Test fixtures and trace helpers used by the verification
-/

/-- A well-formed claim used to instantiate C1: successful, correct secret,
fresh details, recent timestamp. -/
def arC1 : AttackResult where
  success := true
  secret_key := some "fetch_ai_2024"
  target_id := "T1"
  exploit_details := [("exploit_type", .str "secret_key_extraction"),
    ("payload", .str "x"), ("timestamp", .time 0)]

/-- A claim used to instantiate C9: well-formed but stale (timestamp 0,
verified at time 100000, far beyond the 5-minute bound). -/
def arC9 : AttackResult where
  success := true
  secret_key := some "fetch_ai_2024"
  target_id := "T1"
  exploit_details := [("exploit_type", .str "sql_injection"),
    ("payload", .str "y"), ("timestamp", .time 0)]

/-- The ways one `save_bounty_token` attempt can fail to yield a usable
transaction reference: raise an exception, return a falsy string, or return
the `"0x0000..."` placeholder. -/
def failedCall (o : Option String) : Prop :=
  o = none ∨ o = some "" ∨ o = some "0x0000..."

/-- A payment-service oracle whose every call raises. -/
def noneOracle : Nat → Option String := fun _ => none

/-- A payment-service oracle whose every call returns a good reference. -/
def goodOracle : Nat → Option String := fun _ => some "0xabc"

/-- A state 10 tokens short of the daily cap, for the C2 witness. -/
def stC2 : JudgeState := { initialState 0 with daily_bounty_total := 9990 }

/-- A state with an in-window rate-limit entry, for the C5 witness. -/
def stC5 : JudgeState :=
  { initialState 0 with rate_limits := [("red", ⟨2, 0, some 0⟩)] }

/-- A state whose bounty history already holds 1000 one-token records, for
the C10 witness. -/
def stC10 : JudgeState :=
  { initialState 0 with
      bounty_history := List.replicate 1000 (⟨"old", 1, "0xold", 0, []⟩ : BountyRecord) }

/-- Number of `/api/submit-audit` POSTs in a trace. -/
def countSubmits (evs : List NetEvent) : Nat :=
  (evs.filter (fun e => match e with | .submitPost => true | _ => false)).length

/-- The back-off sleeps taken in a trace, in order. -/
def sleepsOf (evs : List NetEvent) : List ℚ :=
  evs.filterMap (fun e => match e with | .sleepFor d => some d | _ => none)

/-- The attempt outcomes the spec calls retryable: server errors (5xx) and
network/timeout errors (exceptions). -/
def retryableOutcome : AttemptOutcome → Bool
  | .exn _ => true
  | .resp s _ _ => decide (500 ≤ s)

/-- The environment used by the C7 witness: healthy initialized service,
every submission attempt succeeding. -/
def envC7 : MidnightEnv where
  simulation_mode := false
  now := 0
  health_probe := .resp 200 "healthy" (some "0xc")
  init_outcome := .ok (some "0xc")
  submit_outcomes := fun _ => .resp 200 ⟨true, none, some "tx1", none, none⟩ none
  jitter := fun _ => 0

/-- An empty health cache. -/
def cacheC7 : HealthCache := ⟨none, false, none, 30⟩

/-- Environment whose first submission attempt returns HTTP 404 and whose
second returns success, for the C8 counterexample. -/
def envC8 : MidnightEnv where
  simulation_mode := false
  now := 0
  health_probe := .resp 200 "healthy" (some "0xc")
  init_outcome := .ok (some "0xc")
  submit_outcomes := fun k =>
    if k = 0 then .resp 404 ⟨false, none, none, none, none⟩ none
    else .resp 200 ⟨true, none, some "tx1", none, none⟩ none
  jitter := fun _ => 0

/-- A young cache asserting a healthy, initialized service. -/
def cacheC8 : HealthCache := ⟨some 0, true, some "0xc", 30⟩

/-- Environment for the C8 witness: a 503 on the first attempt, then an
HTTP 400 carrying a detail message. -/
def envC8a : MidnightEnv where
  simulation_mode := false
  now := 0
  health_probe := .resp 200 "healthy" (some "0xc")
  init_outcome := .ok (some "0xc")
  submit_outcomes := fun k =>
    if k = 0 then .resp 503 ⟨false, none, none, none, none⟩ none
    else .resp 400 ⟨false, none, none, none, none⟩ (some "bad witness")
  jitter := fun _ => 0

/-- Environment for the C8 witness: every attempt times out. -/
def envC8b : MidnightEnv where
  simulation_mode := false
  now := 0
  health_probe := .resp 200 "healthy" (some "0xc")
  init_outcome := .ok (some "0xc")
  submit_outcomes := fun _ => .exn "Request timeout after 60.0s"
  jitter := fun _ => 0

/-!
## Basic lemmas about the embedded operations
-/

theorem dictFind_dictInsert_self {α : Type} (m : List (String × α)) (k : String)
    (v : α) : dictFind (dictInsert m k v) k = some v := by
  induction m with
  | nil => simp [dictInsert, dictFind]
  | cons p rest ih =>
      obtain ⟨k', v'⟩ := p
      by_cases h : k' = k
      · subst h; simp [dictInsert, dictFind]
      · simp [dictInsert, dictFind, h, ih]

theorem dictInsert_id {α : Type} (m : List (String × α)) (k : String) (v : α)
    (h : dictFind m k = some v) : dictInsert m k v = m := by
  induction m with
  | nil => simp [dictFind] at h
  | cons p rest ih =>
      obtain ⟨k', v'⟩ := p
      by_cases hk : k' = k
      · subst hk
        simp [dictFind] at h
        simp [dictInsert, h]
      · simp [dictFind, hk] at h
        simp [dictInsert, hk, ih h]

theorem reset_daily_fields (st : JudgeState) (now : Int) :
    (reset_daily_tracking st now).verified_exploits = st.verified_exploits ∧
    (reset_daily_tracking st now).rate_limits = st.rate_limits ∧
    (reset_daily_tracking st now).bounty_history = st.bounty_history ∧
    (reset_daily_tracking st now).membase_events = st.membase_events := by
  unfold reset_daily_tracking; split <;> exact ⟨rfl, rfl, rfl, rfl⟩

theorem reset_daily_total (st : JudgeState) (now : Int) :
    (reset_daily_tracking st now).daily_bounty_total =
      if dateOf now > st.daily_reset_date then 0 else st.daily_bounty_total := by
  unfold reset_daily_tracking; split <;> rfl

theorem reset_daily_same_day (st : JudgeState) (now : Int)
    (h : dateOf now ≤ st.daily_reset_date) :
    reset_daily_tracking st now = st := by
  unfold reset_daily_tracking
  rw [if_neg (by omega)]

theorem check_rate_limit_snd (cfg : JudgeConfig) (st : JudgeState) (now : Int)
    (rid : String) :
    (check_rate_limit cfg st now rid).2.2.rate_limits =
      dictInsert st.rate_limits rid
        (window_advance ((dictFind st.rate_limits rid).getD ⟨0, now, none⟩) now) ∧
    (check_rate_limit cfg st now rid).2.2.verified_exploits = st.verified_exploits ∧
    (check_rate_limit cfg st now rid).2.2.bounty_history = st.bounty_history ∧
    (check_rate_limit cfg st now rid).2.2.membase_events = st.membase_events ∧
    (check_rate_limit cfg st now rid).2.2.daily_bounty_total = st.daily_bounty_total ∧
    (check_rate_limit cfg st now rid).2.2.daily_reset_date = st.daily_reset_date :=
  ⟨rfl, rfl, rfl, rfl, rfl, rfl⟩

theorem check_rate_limit_fst (cfg : JudgeConfig) (st : JudgeState) (now : Int)
    (rid : String) :
    (check_rate_limit cfg st now rid).1 =
      (rate_verdict cfg
        (window_advance ((dictFind st.rate_limits rid).getD ⟨0, now, none⟩) now) now).1 :=
  rfl

theorem verify_severity_stage_snd (cfg : JudgeConfig) (st : JudgeState)
    (ar : AttackResult) : (verify_severity_stage cfg st ar).2 = st := by
  unfold verify_severity_stage
  dsimp only
  split_ifs <;> rfl

theorem verify_after_replay_snd (cfg : JudgeConfig) (st : JudgeState) (now : Int)
    (ar : AttackResult) : (verify_after_replay cfg st now ar).2 = st := by
  unfold verify_after_replay
  cases exploit_age_exceeded cfg now ar.exploit_details with
  | none => exact verify_severity_stage_snd cfg st ar
  | some age => rfl

/-- Reduction of `verify_exploit` for a claim passing the success and
SECRET_KEY stages whose digest is not yet in the replay set: the digest is
added and the remaining stages run on the grown state. -/
theorem verify_exploit_fresh (cfg : JudgeConfig) (st : JudgeState) (now : Int)
    (ar : AttackResult)
    (hsucc : ar.success = true) (hsk : checkSecretKey cfg ar = none)
    (hprev : cfg.prevent_replay = true)
    (hnew : st.verified_exploits.contains (hash_exploit ar.exploit_details) = false) :
    verify_exploit cfg st now ar =
      verify_after_replay cfg
        { st with verified_exploits :=
            hash_exploit ar.exploit_details :: st.verified_exploits }
        now ar := by
  have hnotmem : hash_exploit ar.exploit_details ∉ st.verified_exploits := by
    simpa using hnew
  unfold verify_exploit
  simp [hsucc, hsk, hprev, hnotmem]

/-- Reduction of `verify_exploit` for a claim passing the success and
SECRET_KEY stages whose digest is already in the replay set: rejected as a
duplicate, state unchanged. -/
theorem verify_exploit_dup (cfg : JudgeConfig) (st : JudgeState) (now : Int)
    (ar : AttackResult)
    (hsucc : ar.success = true) (hsk : checkSecretKey cfg ar = none)
    (hprev : cfg.prevent_replay = true)
    (hmem : st.verified_exploits.contains (hash_exploit ar.exploit_details) = true) :
    verify_exploit cfg st now ar =
      (⟨false, "low", 0, "Duplicate exploit submission (replay attack detected)"⟩, st) := by
  have hmem' : hash_exploit ar.exploit_details ∈ st.verified_exploits := by
    simpa using hmem
  unfold verify_exploit
  simp [hsucc, hsk, hprev, hmem']

theorem verify_after_replay_valid (cfg : JudgeConfig) (st : JudgeState)
    (now : Int) (ar : AttackResult)
    (hage : exploit_age_exceeded cfg now ar.exploit_details = none)
    (hsev : severityIndex cfg.min_severity ≤
      severityIndex (determine_severity ar.exploit_details)) :
    (verify_after_replay cfg st now ar).1.is_valid = true := by
  unfold verify_after_replay
  rw [hage]
  unfold verify_severity_stage
  rw [if_neg (by omega)]

theorem verify_after_replay_invalid (cfg : JudgeConfig) (st : JudgeState)
    (now : Int) (ar : AttackResult)
    (hrej : exploit_age_exceeded cfg now ar.exploit_details ≠ none ∨
      severityIndex (determine_severity ar.exploit_details) <
        severityIndex cfg.min_severity) :
    (verify_after_replay cfg st now ar).1.is_valid = false := by
  unfold verify_after_replay
  cases hage : exploit_age_exceeded cfg now ar.exploit_details with
  | some age => rfl
  | none =>
      rcases hrej with h | h
      · exact absurd hage h
      · unfold verify_severity_stage
        rw [if_pos h]

/-!
## Claim theorems
-/

/-- **C1.**  For every well-formed claim that passes all verification rules
(successful, SECRET_KEY stage passes, digest not yet seen, not stale,
severity at or above the floor), the first `verify_exploit` call returns
`is_valid = true`, and a second call with identical `exploit_details`
returns `is_valid = false` with the duplicate-submission reason (which
contains "duplicate" up to letter case) — the replay set mutated by the
first call detects the replay. -/
theorem C1_replay_rejection (cfg : JudgeConfig) (st : JudgeState)
    (now now' : Int) (ar ar2 : AttackResult)
    (hprev : cfg.prevent_replay = true)
    (hsucc : ar.success = true)
    (hsk : checkSecretKey cfg ar = none)
    (hnew : st.verified_exploits.contains (hash_exploit ar.exploit_details) = false)
    (hage : exploit_age_exceeded cfg now ar.exploit_details = none)
    (hsev : severityIndex cfg.min_severity ≤
      severityIndex (determine_severity ar.exploit_details))
    (hsucc2 : ar2.success = true)
    (hsk2 : checkSecretKey cfg ar2 = none)
    (hdet : ar2.exploit_details = ar.exploit_details) :
    (verify_exploit cfg st now ar).1.is_valid = true ∧
    (verify_exploit cfg (verify_exploit cfg st now ar).2 now' ar2).1.is_valid = false ∧
    (verify_exploit cfg (verify_exploit cfg st now ar).2 now' ar2).1.reason =
      "Duplicate exploit submission (replay attack detected)" ∧
    strContains
      (strToLower (verify_exploit cfg (verify_exploit cfg st now ar).2 now' ar2).1.reason)
      "duplicate" = true := by
  have hred := verify_exploit_fresh cfg st now ar hsucc hsk hprev hnew
  have hmem : ((verify_exploit cfg st now ar).2).verified_exploits.contains
      (hash_exploit ar2.exploit_details) = true := by
    rw [hred, verify_after_replay_snd, hdet]
    simp [List.contains]
  have hdup := verify_exploit_dup cfg (verify_exploit cfg st now ar).2 now' ar2
    hsucc2 hsk2 hprev hmem
  refine ⟨?_, ?_, ?_, ?_⟩
  · rw [hred]; exact verify_after_replay_valid cfg _ now ar hage hsev
  · rw [hdup]
  · rw [hdup]
  · rw [hdup]; dsimp only; decide

/-- **C9.**  When `prevent_replay` is on, the digest is added to the seen
set before the staleness and minimum-severity checks, so a claim rejected
as too old or below the severity floor still consumes its digest: the first
call is invalid, the digest is in the set afterwards, and resubmitting
identical `exploit_details` is rejected as a duplicate even though no
bounty was awarded. -/
theorem C9_rejected_claim_consumes_digest (cfg : JudgeConfig) (st : JudgeState)
    (now now' : Int) (ar ar2 : AttackResult)
    (hprev : cfg.prevent_replay = true)
    (hsucc : ar.success = true)
    (hsk : checkSecretKey cfg ar = none)
    (hnew : st.verified_exploits.contains (hash_exploit ar.exploit_details) = false)
    (hrej : exploit_age_exceeded cfg now ar.exploit_details ≠ none ∨
      severityIndex (determine_severity ar.exploit_details) <
        severityIndex cfg.min_severity)
    (hsucc2 : ar2.success = true)
    (hsk2 : checkSecretKey cfg ar2 = none)
    (hdet : ar2.exploit_details = ar.exploit_details) :
    (verify_exploit cfg st now ar).1.is_valid = false ∧
    (verify_exploit cfg st now ar).2.verified_exploits.contains
      (hash_exploit ar.exploit_details) = true ∧
    (verify_exploit cfg (verify_exploit cfg st now ar).2 now' ar2).1 =
      ⟨false, "low", 0, "Duplicate exploit submission (replay attack detected)"⟩ := by
  have hred := verify_exploit_fresh cfg st now ar hsucc hsk hprev hnew
  have hmem : ((verify_exploit cfg st now ar).2).verified_exploits.contains
      (hash_exploit ar.exploit_details) = true := by
    rw [hred, verify_after_replay_snd]
    simp [List.contains]
  refine ⟨?_, hmem, ?_⟩
  · rw [hred]; exact verify_after_replay_invalid cfg _ now ar hrej
  · have hmem2 : ((verify_exploit cfg st now ar).2).verified_exploits.contains
        (hash_exploit ar2.exploit_details) = true := by rw [hdet]; exact hmem
    rw [verify_exploit_dup cfg (verify_exploit cfg st now ar).2 now' ar2
      hsucc2 hsk2 hprev hmem2]

/-- Witness for C1 at a concrete claim: the first call (30 s after the
attack) is valid, the immediate resubmission is rejected as a duplicate. -/
theorem C1_replay_rejection_witness :
    (initialState 0).verified_exploits.contains (hash_exploit arC1.exploit_details) = false ∧
    ((verify_exploit defaultConfig (initialState 0) 30 arC1).1.is_valid = true ∧
     (verify_exploit defaultConfig
       (verify_exploit defaultConfig (initialState 0) 30 arC1).2 40 arC1).1.is_valid = false ∧
     (verify_exploit defaultConfig
       (verify_exploit defaultConfig (initialState 0) 30 arC1).2 40 arC1).1.reason =
       "Duplicate exploit submission (replay attack detected)" ∧
     strContains (strToLower (verify_exploit defaultConfig
       (verify_exploit defaultConfig (initialState 0) 30 arC1).2 40 arC1).1.reason)
       "duplicate" = true) :=
  ⟨by decide,
   C1_replay_rejection defaultConfig (initialState 0) 30 40 arC1 arC1
     (by decide) (by decide) (by decide) (by decide) (by decide) (by decide)
     (by decide) (by decide) rfl⟩

/-- Witness for C9 at a concrete stale claim: the first call rejects it as
too old yet consumes the digest; resubmission is rejected as a duplicate. -/
theorem C9_rejected_claim_consumes_digest_witness :
    (initialState 0).verified_exploits.contains (hash_exploit arC9.exploit_details) = false ∧
    ((verify_exploit defaultConfig (initialState 0) 100000 arC9).1.is_valid = false ∧
     (verify_exploit defaultConfig (initialState 0) 100000 arC9).2.verified_exploits.contains
       (hash_exploit arC9.exploit_details) = true ∧
     (verify_exploit defaultConfig
       (verify_exploit defaultConfig (initialState 0) 100000 arC9).2 100010 arC9).1 =
       ⟨false, "low", 0, "Duplicate exploit submission (replay attack detected)"⟩) :=
  ⟨by decide,
   C9_rejected_claim_consumes_digest defaultConfig (initialState 0) 100000 100010 arC9 arC9
     (by decide) (by decide) (by decide) (by decide) (Or.inl (by decide))
     (by decide) (by decide) rfl⟩

/-- **C3 (counterexample).**  The claim asserts that once 3600 s have
elapsed since `window_start` the window resets *and checks succeed again*.
Concrete refutation: a submitter with `count = 10, window_start = 0,
last_submission = 3590` checked at `now = 3600`: the window has fully
elapsed (and is indeed reset — the reason is not the hourly one), yet the
check is rejected, because the cooldown is still active. -/
theorem C3_counterexample :
    (3600 : Int) - 0 ≥ 3600 ∧
    (check_rate_limit defaultConfig
      { initialState 0 with rate_limits := [("red", ⟨10, 0, some 3590⟩)] }
      3600 "red").1 = false ∧
    (check_rate_limit defaultConfig
      { initialState 0 with rate_limits := [("red", ⟨10, 0, some 3590⟩)] }
      3600 "red").2.1 = "Cooldown active: 110 seconds remaining" := by
  refine ⟨by decide, ?_, ?_⟩ <;> decide

/-- **C3 (amended).**  With the default limits: while the hourly window has
not elapsed, a submitter whose count has reached 10 is rejected with the
rate-limit reason; once at least 3600 s have elapsed since `window_start`
the window resets (`count = 0`, `window_start = now`) and the check
succeeds again **provided the 120 s cooldown since `last_submission` has
also elapsed**. -/
theorem C3_rate_limit_window (st : JudgeState) (e : RateLimitEntry)
    (rid : String) (now : Int)
    (hmem : dictFind st.rate_limits rid = some e) :
    ((e.count ≥ 10 ∧ now - e.window_start < 3600) →
      (check_rate_limit defaultConfig st now rid).1 = false ∧
      (check_rate_limit defaultConfig st now rid).2.1 =
        "Rate limit exceeded: " ++ toString e.count ++ "/" ++
          toString (10 : Nat) ++ " bounties per hour") ∧
    ((now - e.window_start ≥ 3600 ∧
        (∀ ls, e.last_submission = some ls → now - ls ≥ 120)) →
      (check_rate_limit defaultConfig st now rid).1 = true ∧
      (check_rate_limit defaultConfig st now rid).2.1 = "OK" ∧
      dictFind (check_rate_limit defaultConfig st now rid).2.2.rate_limits rid =
        some ⟨0, now, e.last_submission⟩) := by
  have hfind : (dictFind st.rate_limits rid).getD ⟨0, now, none⟩ = e := by
    rw [hmem]; rfl
  constructor
  · rintro ⟨hc, hw⟩
    have he1 : window_advance ((dictFind st.rate_limits rid).getD ⟨0, now, none⟩) now = e := by
      rw [hfind]; unfold window_advance; rw [if_neg (by omega)]
    have hv : (check_rate_limit defaultConfig st now rid).1 =
        (rate_verdict defaultConfig e now).1 := by
      rw [check_rate_limit_fst, he1]
    have hv2 : (check_rate_limit defaultConfig st now rid).2.1 =
        (rate_verdict defaultConfig e now).2 := by
      show (rate_verdict defaultConfig
        (window_advance ((dictFind st.rate_limits rid).getD ⟨0, now, none⟩) now) now).2 = _
      rw [he1]
    have hverd : rate_verdict defaultConfig e now =
        (false, "Rate limit exceeded: " ++ toString e.count ++ "/" ++
          toString (10 : Nat) ++ " bounties per hour") := by
      simp only [rate_verdict, defaultConfig]
      rw [if_pos hc]
    exact ⟨by rw [hv, hverd], by rw [hv2, hverd]⟩
  · rintro ⟨hw, hcool⟩
    have he1 : window_advance ((dictFind st.rate_limits rid).getD ⟨0, now, none⟩) now =
        ⟨0, now, e.last_submission⟩ := by
      rw [hfind]; unfold window_advance; rw [if_pos (by omega)]
    have hv : (check_rate_limit defaultConfig st now rid).1 =
        (rate_verdict defaultConfig ⟨0, now, e.last_submission⟩ now).1 := by
      rw [check_rate_limit_fst, he1]
    have hv2 : (check_rate_limit defaultConfig st now rid).2.1 =
        (rate_verdict defaultConfig ⟨0, now, e.last_submission⟩ now).2 := by
      show (rate_verdict defaultConfig
        (window_advance ((dictFind st.rate_limits rid).getD ⟨0, now, none⟩) now) now).2 = _
      rw [he1]
    have hverd : rate_verdict defaultConfig ⟨0, now, e.last_submission⟩ now = (true, "OK") := by
      simp only [rate_verdict, defaultConfig]
      rw [if_neg (show ¬ (0 : Nat) ≥ 10 by omega)]
      cases hls : e.last_submission with
      | none => rfl
      | some ls =>
          have hge := hcool ls hls
          dsimp only
          rw [if_neg (show ¬ now - ls < (120 : Int) by omega)]
    refine ⟨by rw [hv, hverd], by rw [hv2, hverd], ?_⟩
    rw [(check_rate_limit_snd defaultConfig st now rid).1, he1]
    exact dictFind_dictInsert_self st.rate_limits rid _

/-- Witness for the amended C3: a submitter at the count limit inside the
window is rejected; at `now = 5000` (window elapsed, cooldown elapsed) the
check passes with a reset window. -/
theorem C3_rate_limit_window_witness :
    dictFind ({ initialState 0 with
        rate_limits := [("red", ⟨10, 0, some 100⟩)] } : JudgeState).rate_limits "red" =
      some ⟨10, 0, some 100⟩ ∧
    ((((10 : Nat) ≥ 10 ∧ (1800 : Int) - 0 < 3600) →
      (check_rate_limit defaultConfig
        { initialState 0 with rate_limits := [("red", ⟨10, 0, some 100⟩)] } 1800 "red").1 = false ∧
      (check_rate_limit defaultConfig
        { initialState 0 with rate_limits := [("red", ⟨10, 0, some 100⟩)] } 1800 "red").2.1 =
        "Rate limit exceeded: " ++ toString (10 : Nat) ++ "/" ++
          toString (10 : Nat) ++ " bounties per hour") ∧
     (((1800 : Int) - 0 ≥ 3600 ∧
        (∀ ls, (some (100 : Int) : Option Int) = some ls → (1800 : Int) - ls ≥ 120)) →
      (check_rate_limit defaultConfig
        { initialState 0 with rate_limits := [("red", ⟨10, 0, some 100⟩)] } 1800 "red").1 = true ∧
      (check_rate_limit defaultConfig
        { initialState 0 with rate_limits := [("red", ⟨10, 0, some 100⟩)] } 1800 "red").2.1 = "OK" ∧
      dictFind (check_rate_limit defaultConfig
        { initialState 0 with rate_limits := [("red", ⟨10, 0, some 100⟩)] } 1800 "red").2.2.rate_limits
        "red" = some ⟨0, 1800, some 100⟩)) :=
  ⟨by decide,
   C3_rate_limit_window
     { initialState 0 with rate_limits := [("red", ⟨10, 0, some 100⟩)] }
     ⟨10, 0, some 100⟩ "red" 1800 (by decide)⟩

/-- **C4 (counterexample).**  The claim asserts the check rejects *iff*
strictly fewer than 120 s have elapsed since `last_submission`.  Concrete
refutation: a submitter with `count = 10` inside the current window and
`last_submission` 1000 s ago (cooldown long over) is still rejected — by
the hourly limit. -/
theorem C4_counterexample :
    (120 : Int) ≤ 1000 - 0 ∧
    (check_rate_limit defaultConfig
      { initialState 0 with rate_limits := [("red", ⟨10, 1000, some 0⟩)] }
      1000 "red").1 = false := by
  refine ⟨by decide, ?_⟩; decide

/-- **C4 (amended).**  For a submitter with a recorded `last_submission`,
**provided the hourly count (after any window reset) is below the limit**,
the check rejects iff strictly fewer than `cooldown_seconds` (120) have
elapsed since `last_submission`, reporting the exact remaining seconds; at
or past the boundary it passes. -/
theorem C4_cooldown_boundary (st : JudgeState) (e : RateLimitEntry)
    (rid : String) (now ls : Int)
    (hmem : dictFind st.rate_limits rid = some e)
    (hls : e.last_submission = some ls)
    (hcount : (window_advance e now).count < 10) :
    ((check_rate_limit defaultConfig st now rid).1 = false ↔ now - ls < 120) ∧
    (now - ls < 120 →
      (check_rate_limit defaultConfig st now rid).2.1 =
        "Cooldown active: " ++ toString (120 - (now - ls)) ++ " seconds remaining") ∧
    (120 ≤ now - ls → (check_rate_limit defaultConfig st now rid).1 = true) := by
  have hfind : (dictFind st.rate_limits rid).getD ⟨0, now, none⟩ = e := by
    rw [hmem]; rfl
  have hlast : (window_advance e now).last_submission = some ls := by
    unfold window_advance; split_ifs <;> simpa using hls
  have hv : (check_rate_limit defaultConfig st now rid).1 =
      (rate_verdict defaultConfig (window_advance e now) now).1 := by
    rw [check_rate_limit_fst, hfind]
  have hv2 : (check_rate_limit defaultConfig st now rid).2.1 =
      (rate_verdict defaultConfig (window_advance e now) now).2 := by
    show (rate_verdict defaultConfig
      (window_advance ((dictFind st.rate_limits rid).getD ⟨0, now, none⟩) now) now).2 = _
    rw [hfind]
  have hverd : rate_verdict defaultConfig (window_advance e now) now =
      (if now - ls < 120 then
        (false,
         "Cooldown active: " ++ toString (120 - (now - ls)) ++ " seconds remaining")
       else (true, "OK")) := by
    simp only [rate_verdict, defaultConfig]
    rw [if_neg (show ¬ (window_advance e now).count ≥ 10 by omega), hlast]
  refine ⟨?_, ?_, ?_⟩
  · rw [hv, hverd]
    constructor
    · intro hrej
      by_contra hge
      rw [if_neg hge] at hrej
      exact absurd hrej (by decide)
    · intro hlt
      rw [if_pos hlt]
  · intro hlt
    rw [hv2, hverd, if_pos hlt]
  · intro hge
    rw [hv, hverd, if_neg (show ¬ now - ls < (120 : Int) by omega)]

/-- Witness for the amended C4: 30 s after a submission the check rejects
with "90 seconds remaining"; the same state checked 120 s after passes. -/
theorem C4_cooldown_boundary_witness :
    dictFind ({ initialState 0 with
        rate_limits := [("red", ⟨3, 0, some 100⟩)] } : JudgeState).rate_limits "red" =
      some ⟨3, 0, some 100⟩ ∧
    ((((check_rate_limit defaultConfig
        { initialState 0 with rate_limits := [("red", ⟨3, 0, some 100⟩)] }
        130 "red").1 = false ↔ (130 : Int) - 100 < 120) ∧
      ((130 : Int) - 100 < 120 →
        (check_rate_limit defaultConfig
          { initialState 0 with rate_limits := [("red", ⟨3, 0, some 100⟩)] }
          130 "red").2.1 =
          "Cooldown active: " ++ toString ((120 : Int) - (130 - 100)) ++ " seconds remaining") ∧
      ((120 : Int) ≤ 130 - 100 →
        (check_rate_limit defaultConfig
          { initialState 0 with rate_limits := [("red", ⟨3, 0, some 100⟩)] }
          130 "red").1 = true)) ∧
     (120 ≤ (220 : Int) - 100 →
      (check_rate_limit defaultConfig
        { initialState 0 with rate_limits := [("red", ⟨3, 0, some 100⟩)] }
        220 "red").1 = true)) :=
  ⟨by decide,
   C4_cooldown_boundary
     { initialState 0 with rate_limits := [("red", ⟨3, 0, some 100⟩)] }
     ⟨3, 0, some 100⟩ "red" 130 100 (by decide) rfl (by decide),
   (C4_cooldown_boundary
     { initialState 0 with rate_limits := [("red", ⟨3, 0, some 100⟩)] }
     ⟨3, 0, some 100⟩ "red" 220 100 (by decide) rfl (by decide)).2.2⟩

/-!
## Lemmas about the payout pipeline
-/

theorem reset_daily_membase (st : JudgeState) (now : Int) :
    (reset_daily_tracking st now).membase_events = st.membase_events := by
  unfold reset_daily_tracking; split <;> rfl

theorem reset_daily_history (st : JudgeState) (now : Int) :
    (reset_daily_tracking st now).bounty_history = st.bounty_history := by
  unfold reset_daily_tracking; split <;> rfl

theorem reset_daily_rate_limits (st : JudgeState) (now : Int) :
    (reset_daily_tracking st now).rate_limits = st.rate_limits := by
  unfold reset_daily_tracking; split <;> rfl

theorem check_rate_limit_membase (cfg : JudgeConfig) (st : JudgeState)
    (now : Int) (rid : String) :
    (check_rate_limit cfg st now rid).2.2.membase_events = st.membase_events := rfl

theorem check_rate_limit_daily (cfg : JudgeConfig) (st : JudgeState)
    (now : Int) (rid : String) :
    (check_rate_limit cfg st now rid).2.2.daily_bounty_total = st.daily_bounty_total := rfl

theorem check_rate_limit_history (cfg : JudgeConfig) (st : JudgeState)
    (now : Int) (rid : String) :
    (check_rate_limit cfg st now rid).2.2.bounty_history = st.bounty_history := rfl

theorem payout_commit_fst (cfg : JudgeConfig) (st : JudgeState) (now : Int)
    (rid : String) (amount : Int) (data : ExploitDetails) (tx : String) :
    (payout_commit cfg st now rid amount data tx).1 = ⟨true, tx, amount, rid, now⟩ := rfl

theorem payout_commit_daily (cfg : JudgeConfig) (st : JudgeState) (now : Int)
    (rid : String) (amount : Int) (data : ExploitDetails) (tx : String) :
    (payout_commit cfg st now rid amount data tx).2.daily_bounty_total =
      st.daily_bounty_total + amount := by
  unfold payout_commit log_to_membase update_rate_limit
  dsimp only
  split_ifs <;> rfl

theorem payout_commit_membase (cfg : JudgeConfig) (st : JudgeState) (now : Int)
    (rid : String) (amount : Int) (data : ExploitDetails) (tx : String)
    (h : cfg.membase_enabled = true) :
    (payout_commit cfg st now rid amount data tx).2.membase_events =
      st.membase_events ++ [⟨"payout", rid, some amount, some tx⟩] := by
  unfold payout_commit log_to_membase update_rate_limit
  dsimp only
  rw [if_neg (by simp [h])]

theorem payout_commit_ratelimits (cfg : JudgeConfig) (st : JudgeState) (now : Int)
    (rid : String) (amount : Int) (data : ExploitDetails) (tx : String) :
    (payout_commit cfg st now rid amount data tx).2.rate_limits =
      (update_rate_limit st now rid).rate_limits := by
  unfold payout_commit log_to_membase
  dsimp only
  split_ifs <;> rfl

set_option maxRecDepth 4000

theorem payout_commit_history (cfg : JudgeConfig) (st : JudgeState) (now : Int)
    (rid : String) (amount : Int) (data : ExploitDetails) (tx : String) :
    (payout_commit cfg st now rid amount data tx).2.bounty_history =
      (if (st.bounty_history ++ [(⟨rid, amount, tx, now, data⟩ : BountyRecord)]).length > 1000 then
        (st.bounty_history ++ [(⟨rid, amount, tx, now, data⟩ : BountyRecord)]).drop
          ((st.bounty_history ++ [(⟨rid, amount, tx, now, data⟩ : BountyRecord)]).length - 1000)
       else st.bounty_history ++ [(⟨rid, amount, tx, now, data⟩ : BountyRecord)]) := by
  unfold payout_commit log_to_membase update_rate_limit
  dsimp only
  by_cases h1 : cfg.membase_enabled = false
  · rw [if_pos h1]
  · rw [if_neg h1]

/-- Helper for C2: one `trigger_bounty` call preserves
`daily_bounty_total ≤ daily_cap`. -/
theorem trigger_bounty_cap_step (cfg : JudgeConfig) (st : JudgeState)
    (now : Int) (rid : String) (amount : Int) (data : ExploitDetails)
    (oracle : Nat → Option String)
    (hcap : 0 ≤ cfg.daily_cap) (hst : st.daily_bounty_total ≤ cfg.daily_cap) :
    (trigger_bounty cfg st now rid amount data oracle).2.daily_bounty_total ≤
      cfg.daily_cap := by
  have hst1 : (reset_daily_tracking st now).daily_bounty_total ≤ cfg.daily_cap := by
    rw [reset_daily_total]; split_ifs <;> omega
  simp only [trigger_bounty]
  split_ifs with h1 h2 h3 h4
  · exact hst1
  · rw [check_rate_limit_daily]; exact hst1
  · rw [check_rate_limit_daily]; exact hst1
  · rw [payout_commit_daily, check_rate_limit_daily]; omega
  · rw [payout_commit_daily, check_rate_limit_daily]; omega

/-- Helper for C2: any sequence of `trigger_bounty` calls preserves
`daily_bounty_total ≤ daily_cap`. -/
theorem runBounties_cap (cfg : JudgeConfig) (hcap : 0 ≤ cfg.daily_cap)
    (calls : List BountyCall) : ∀ st : JudgeState,
    st.daily_bounty_total ≤ cfg.daily_cap →
    (runBounties cfg st calls).daily_bounty_total ≤ cfg.daily_cap := by
  induction calls with
  | nil => intro st h; exact h
  | cons c cs ih =>
      intro st h
      exact ih _ (trigger_bounty_cap_step cfg st c.now c.red_team_id
        c.bounty_amount c.exploit_data c.oracle hcap h)

/-- **C2.**  Starting from any state within the daily cap (with a
non-negative cap), no sequence of `trigger_bounty` calls can push
`daily_bounty_total` past `daily_cap`; moreover a single call that would
exceed the cap fails outright when the remaining budget is exhausted
(`success = false, bounty_paid = 0`), and otherwise shrinks the paid amount
to exactly the remaining budget. -/
theorem C2_daily_cap_never_exceeded (cfg : JudgeConfig) (st st' : JudgeState)
    (calls : List BountyCall) (now : Int) (rid : String) (amount : Int)
    (data : ExploitDetails) (oracle : Nat → Option String)
    (hcap : 0 ≤ cfg.daily_cap)
    (hst : st.daily_bounty_total ≤ cfg.daily_cap)
    (hst' : st'.daily_bounty_total ≤ cfg.daily_cap) :
    (runBounties cfg st calls).daily_bounty_total ≤ cfg.daily_cap ∧
    (trigger_bounty cfg st' now rid amount data oracle).2.daily_bounty_total ≤
      cfg.daily_cap ∧
    ((reset_daily_tracking st' now).daily_bounty_total + amount > cfg.daily_cap →
      cfg.daily_cap - (reset_daily_tracking st' now).daily_bounty_total ≤ 0 →
      (trigger_bounty cfg st' now rid amount data oracle).1 =
        ⟨false, "", 0, rid, now⟩) ∧
    ((reset_daily_tracking st' now).daily_bounty_total + amount > cfg.daily_cap →
      0 < cfg.daily_cap - (reset_daily_tracking st' now).daily_bounty_total →
      (trigger_bounty cfg st' now rid amount data oracle).1.success = true →
      (trigger_bounty cfg st' now rid amount data oracle).1.bounty_paid =
        cfg.daily_cap - (reset_daily_tracking st' now).daily_bounty_total) := by
  refine ⟨runBounties_cap cfg hcap calls st hst,
    trigger_bounty_cap_step cfg st' now rid amount data oracle hcap hst', ?_, ?_⟩
  · intro hex hav
    simp only [trigger_bounty]
    rw [if_pos ⟨hex, hav⟩]
  · intro hex hav hsucc
    simp only [trigger_bounty] at hsucc ⊢
    rw [if_neg (fun hh : _ ∧ _ => absurd hh.2 (by omega)), if_pos hex] at hsucc ⊢
    split_ifs at hsucc ⊢ with h2 h3 <;>
      first
      | simp at hsucc
      | rw [payout_commit_fst]

/-- If every call the retry loop makes fails, the loop ends with a bad
`tx_hash` (the payout is not treated as successful). -/
theorem bountyLoop_all_fail (oracle : Nat → Option String) :
    ∀ (fuel k : Nat) (tx : String), isGoodTx tx = false →
      (∀ i, i < fuel → failedCall (oracle (k + i))) →
      isGoodTx (bountyLoop true oracle k fuel tx) = false := by
  intro fuel
  induction fuel with
  | zero =>
      intro k tx htx _
      exact htx
  | succ n ih =>
      intro k tx htx hall
      have h0 : failedCall (oracle k) := by
        have h := hall 0 (Nat.succ_pos n)
        simpa using h
      have hshift : ∀ i, i < n → failedCall (oracle (k + 1 + i)) := by
        intro i hi
        have hidx : k + 1 + i = k + (i + 1) := by omega
        rw [hidx]
        exact hall (i + 1) (by omega)
      rw [bountyLoop, if_pos rfl]
      rcases h0 with h | h | h
      · rw [h]
        exact ih (k + 1) tx htx hshift
      · rw [h]
        dsimp only
        rw [if_neg (by decide)]
        exact ih (k + 1) "" (by decide) hshift
      · rw [h]
        dsimp only
        rw [if_neg (by decide)]
        exact ih (k + 1) "0x0000..." (by decide) hshift

/-- **C5 (counterexample).**  The claim says a `trigger_bounty` call whose
retries all fail leaves the rate-limit state (count, last_submission)
unchanged.  Concrete refutation: a submitter entry `⟨5, 0, some 0⟩` checked
at `now = 4000` (window expired): all three attempts raise, the call fails,
yet the entry has been rewritten to `⟨0, 4000, some 0⟩` by the check's
window reset. -/
theorem C5_counterexample :
    (trigger_bounty defaultConfig
      { initialState 0 with rate_limits := [("red", ⟨5, 0, some 0⟩)] }
      4000 "red" 500 [] noneOracle).1.success = false ∧
    dictFind (trigger_bounty defaultConfig
      { initialState 0 with rate_limits := [("red", ⟨5, 0, some 0⟩)] }
      4000 "red" 500 [] noneOracle).2.rate_limits "red" =
      some ⟨0, 4000, some 0⟩ := by
  constructor <;> decide

/-- **C5 (amended).**  Within the current hourly window and calendar day
(where the check's time-driven resets do not fire): a `trigger_bounty`
call whose three attempts all fail returns failure and leaves the
rate-limit map, the daily total and the bounty history unchanged; and
whenever a call succeeds, the commit happens exactly once — the submitter's
count is incremented by one, `last_submission` becomes `now`, and the daily
total grows by exactly the paid amount. -/
theorem C5_failed_retries_no_commit (cfg : JudgeConfig) (st : JudgeState)
    (now : Int) (rid : String) (amount : Int) (data : ExploitDetails)
    (oracle : Nat → Option String) (e : RateLimitEntry)
    (hen : cfg.unibase_enabled = true)
    (hday : dateOf now ≤ st.daily_reset_date)
    (hmem : dictFind st.rate_limits rid = some e)
    (hwin : now - e.window_start < 3600) :
    ((failedCall (oracle 0) ∧ failedCall (oracle 1) ∧ failedCall (oracle 2)) →
      (trigger_bounty cfg st now rid amount data oracle).1.success = false ∧
      (trigger_bounty cfg st now rid amount data oracle).1.bounty_paid = 0 ∧
      (trigger_bounty cfg st now rid amount data oracle).2.rate_limits =
        st.rate_limits ∧
      (trigger_bounty cfg st now rid amount data oracle).2.daily_bounty_total =
        st.daily_bounty_total ∧
      (trigger_bounty cfg st now rid amount data oracle).2.bounty_history =
        st.bounty_history) ∧
    ((trigger_bounty cfg st now rid amount data oracle).1.success = true →
      dictFind (trigger_bounty cfg st now rid amount data oracle).2.rate_limits rid =
        some ⟨e.count + 1, e.window_start, some now⟩ ∧
      (trigger_bounty cfg st now rid amount data oracle).2.daily_bounty_total =
        st.daily_bounty_total +
          (trigger_bounty cfg st now rid amount data oracle).1.bounty_paid) := by
  have hst1 : reset_daily_tracking st now = st := reset_daily_same_day st now hday
  have he1 : window_advance ((dictFind st.rate_limits rid).getD ⟨0, now, none⟩) now = e := by
    rw [hmem]
    show window_advance e now = e
    unfold window_advance
    rw [if_neg (by omega)]
  have hrl : (check_rate_limit cfg st now rid).2.2.rate_limits = st.rate_limits := by
    rw [(check_rate_limit_snd cfg st now rid).1, he1]
    exact dictInsert_id st.rate_limits rid e hmem
  have hfind2 : dictFind (check_rate_limit cfg st now rid).2.2.rate_limits rid = some e := by
    rw [hrl]; exact hmem
  constructor
  · rintro ⟨h0, h1, h2⟩
    have hbad : isGoodTx (bountyLoop cfg.unibase_enabled oracle 0 3 "") = false := by
      rw [hen]
      refine bountyLoop_all_fail oracle 3 0 "" (by decide) ?_
      intro i hi
      interval_cases i
      · exact h0
      · exact h1
      · exact h2
    simp only [trigger_bounty]
    rw [hst1]
    split_ifs with hc1 hc2 hc3 hc4 <;>
      first
        | exact ⟨rfl, rfl, rfl, rfl, rfl⟩
        | exact ⟨rfl, rfl, hrl, check_rate_limit_daily cfg st now rid,
            check_rate_limit_history cfg st now rid⟩
        | exact absurd hbad (by assumption)
  · intro hsucc
    simp only [trigger_bounty] at hsucc ⊢
    rw [hst1] at hsucc ⊢
    split_ifs at hsucc ⊢ with hc1 hc2 hc3 hc4 <;>
      first
        | simp at hsucc
        | exact ⟨by
            rw [payout_commit_ratelimits]
            unfold update_rate_limit
            rw [hfind2]
            exact dictFind_dictInsert_self _ rid _,
          by rw [payout_commit_daily, check_rate_limit_daily, payout_commit_fst]⟩

/-- **C6 (counterexample).**  The claim says every failed `trigger_bounty`
call records an audit event via `log_to_membase`.  Concrete refutation
(Membase enabled in the default configuration): a call whose three payment
attempts all raise returns failure, and the Membase event list is left
empty — no event was handed to `log_to_membase` on this failure path. -/
theorem C6_counterexample :
    defaultConfig.membase_enabled = true ∧
    (trigger_bounty defaultConfig (initialState 0) 0 "red" 500 []
      noneOracle).1.success = false ∧
    (trigger_bounty defaultConfig (initialState 0) 0 "red" 500 []
      noneOracle).2.membase_events = [] := by
  refine ⟨rfl, ?_, ?_⟩ <;> decide

/-- **C6 (amended).**  `trigger_bounty` hands an event to `log_to_membase`
only on its success path: every failure path (daily-cap rejection,
rate-limit rejection, exhausted retries) leaves the Membase event list
untouched, while a successful call (with Membase enabled) records exactly
one payout event carrying the paid amount and transaction hash. -/
theorem C6_failure_paths_unlogged (cfg cfg2 : JudgeConfig) (st st2 : JudgeState)
    (now now2 : Int) (rid rid2 : String) (amount amount2 : Int)
    (data data2 : ExploitDetails) (oracle oracle2 : Nat → Option String)
    (hfail : (trigger_bounty cfg st now rid amount data oracle).1.success = false)
    (hsucc : (trigger_bounty cfg2 st2 now2 rid2 amount2 data2 oracle2).1.success = true)
    (hmb : cfg2.membase_enabled = true) :
    (trigger_bounty cfg st now rid amount data oracle).2.membase_events =
      st.membase_events ∧
    (trigger_bounty cfg2 st2 now2 rid2 amount2 data2 oracle2).2.membase_events =
      st2.membase_events ++
        [⟨"payout", rid2,
          some (trigger_bounty cfg2 st2 now2 rid2 amount2 data2 oracle2).1.bounty_paid,
          some (trigger_bounty cfg2 st2 now2 rid2 amount2 data2 oracle2).1.tx_hash⟩] := by
  constructor
  · simp only [trigger_bounty] at hfail ⊢
    split_ifs at hfail ⊢ with h1 h2 h3 h4 <;>
      first
        | exact reset_daily_membase st now
        | (rw [check_rate_limit_membase]; exact reset_daily_membase st now)
        | (rw [payout_commit_fst] at hfail; simp at hfail)
  · simp only [trigger_bounty] at hsucc ⊢
    split_ifs at hsucc ⊢ with h1 h2 h3 h4 <;>
      first
        | simp at hsucc
        | (rw [payout_commit_membase _ _ _ _ _ _ _ hmb, check_rate_limit_membase,
            reset_daily_membase st2 now2, payout_commit_fst])

theorem get_statistics_proj (cfg : JudgeConfig) (s : JudgeState) :
    (get_statistics cfg s).total_bounties_paid = s.bounty_history.length ∧
    (get_statistics cfg s).total_bounty_amount =
      (s.bounty_history.map (fun b => b.bounty_amount)).sum ∧
    (get_statistics cfg s).daily_bounty_total = s.daily_bounty_total :=
  ⟨rfl, rfl, rfl⟩

/-- **C10.**  After a successful payout from a state whose bounty history
already holds 1000 records, the history is truncated to the most recent
1000 (the oldest record is dropped, the new one appended), and the
statistics derived from it — `total_bounties_paid`, `total_bounty_amount` —
cover only the retained records, while `daily_bounty_total` keeps growing
by the paid amount independently of the truncation. -/
theorem C10_stats_cover_truncated_history (cfg : JudgeConfig) (st : JudgeState)
    (now : Int) (rid : String) (amount : Int) (data : ExploitDetails)
    (oracle : Nat → Option String)
    (hlen : st.bounty_history.length = 1000)
    (hsucc : (trigger_bounty cfg st now rid amount data oracle).1.success = true) :
    (trigger_bounty cfg st now rid amount data oracle).2.bounty_history =
      st.bounty_history.drop 1 ++
        [⟨rid, (trigger_bounty cfg st now rid amount data oracle).1.bounty_paid,
          (trigger_bounty cfg st now rid amount data oracle).1.tx_hash, now, data⟩] ∧
    (get_statistics cfg
      (trigger_bounty cfg st now rid amount data oracle).2).total_bounties_paid = 1000 ∧
    (get_statistics cfg
      (trigger_bounty cfg st now rid amount data oracle).2).total_bounty_amount =
      ((st.bounty_history.drop 1).map (fun b => b.bounty_amount)).sum +
        (trigger_bounty cfg st now rid amount data oracle).1.bounty_paid ∧
    (get_statistics cfg
      (trigger_bounty cfg st now rid amount data oracle).2).daily_bounty_total =
      (reset_daily_tracking st now).daily_bounty_total +
        (trigger_bounty cfg st now rid amount data oracle).1.bounty_paid := by
  have hhist : ∀ amt tx,
      (payout_commit cfg (check_rate_limit cfg (reset_daily_tracking st now) now rid).2.2
        now rid amt data tx).2.bounty_history =
        st.bounty_history.drop 1 ++ [(⟨rid, amt, tx, now, data⟩ : BountyRecord)] := by
    intro amt tx
    rw [payout_commit_history, check_rate_limit_history, reset_daily_history]
    have hlength :
        (st.bounty_history ++ [(⟨rid, amt, tx, now, data⟩ : BountyRecord)]).length = 1001 := by
      simp [hlen]
    rw [hlength, if_pos (by norm_num), show (1001 - 1000 : ℕ) = 1 from rfl,
      List.drop_append_of_le_length (by omega)]
  simp only [trigger_bounty] at hsucc ⊢
  split_ifs at hsucc ⊢ with h1 h2 h3 h4 <;>
    first
      | simp at hsucc
      | (rw [payout_commit_fst]
         refine ⟨by rw [hhist], ?_, ?_, ?_⟩
         · rw [(get_statistics_proj cfg _).1, hhist]
           simp [hlen]
         · rw [(get_statistics_proj cfg _).2.1, hhist]
           simp
         · rw [(get_statistics_proj cfg _).2.2, payout_commit_daily,
             check_rate_limit_daily])

/-- Witness for C2 at a concrete run: one successful 500-token payout from
a fresh state stays within the cap, and from a state at 9990/10000 the
payment is shrunk to the remaining 10 tokens. -/
theorem C2_daily_cap_never_exceeded_witness :
    ((0 : Int) ≤ defaultConfig.daily_cap ∧
     (initialState 0).daily_bounty_total ≤ defaultConfig.daily_cap ∧
     stC2.daily_bounty_total ≤ defaultConfig.daily_cap) ∧
    ((runBounties defaultConfig (initialState 0)
        [⟨0, "red", 500, [], goodOracle⟩]).daily_bounty_total ≤ defaultConfig.daily_cap ∧
     (trigger_bounty defaultConfig stC2 0 "red" 500 []
        goodOracle).2.daily_bounty_total ≤ defaultConfig.daily_cap ∧
     ((reset_daily_tracking stC2 0).daily_bounty_total + 500 > defaultConfig.daily_cap →
       defaultConfig.daily_cap - (reset_daily_tracking stC2 0).daily_bounty_total ≤ 0 →
       (trigger_bounty defaultConfig stC2 0 "red" 500 [] goodOracle).1 =
         ⟨false, "", 0, "red", 0⟩) ∧
     ((reset_daily_tracking stC2 0).daily_bounty_total + 500 > defaultConfig.daily_cap →
       0 < defaultConfig.daily_cap - (reset_daily_tracking stC2 0).daily_bounty_total →
       (trigger_bounty defaultConfig stC2 0 "red" 500 [] goodOracle).1.success = true →
       (trigger_bounty defaultConfig stC2 0 "red" 500 [] goodOracle).1.bounty_paid =
         defaultConfig.daily_cap - (reset_daily_tracking stC2 0).daily_bounty_total)) :=
  ⟨⟨by decide, by decide, by decide⟩,
   C2_daily_cap_never_exceeded defaultConfig (initialState 0) stC2
     [⟨0, "red", 500, [], goodOracle⟩] 0 "red" 500 [] goodOracle
     (by decide) (by decide) (by decide)⟩

/-- Witness for C5 at a concrete call at `now = 200` (inside the window,
cooldown elapsed) whose three payment attempts all raise. -/
theorem C5_failed_retries_no_commit_witness :
    (defaultConfig.unibase_enabled = true ∧
     dateOf 200 ≤ stC5.daily_reset_date ∧
     dictFind stC5.rate_limits "red" = some ⟨2, 0, some 0⟩ ∧
     (200 : Int) - 0 < 3600) ∧
    (((failedCall (noneOracle 0) ∧ failedCall (noneOracle 1) ∧ failedCall (noneOracle 2)) →
       (trigger_bounty defaultConfig stC5 200 "red" 500 [] noneOracle).1.success = false ∧
       (trigger_bounty defaultConfig stC5 200 "red" 500 [] noneOracle).1.bounty_paid = 0 ∧
       (trigger_bounty defaultConfig stC5 200 "red" 500 [] noneOracle).2.rate_limits =
         stC5.rate_limits ∧
       (trigger_bounty defaultConfig stC5 200 "red" 500 [] noneOracle).2.daily_bounty_total =
         stC5.daily_bounty_total ∧
       (trigger_bounty defaultConfig stC5 200 "red" 500 [] noneOracle).2.bounty_history =
         stC5.bounty_history) ∧
     ((trigger_bounty defaultConfig stC5 200 "red" 500 [] noneOracle).1.success = true →
       dictFind (trigger_bounty defaultConfig stC5 200 "red" 500 []
         noneOracle).2.rate_limits "red" = some ⟨2 + 1, 0, some 200⟩ ∧
       (trigger_bounty defaultConfig stC5 200 "red" 500 [] noneOracle).2.daily_bounty_total =
         stC5.daily_bounty_total +
           (trigger_bounty defaultConfig stC5 200 "red" 500 [] noneOracle).1.bounty_paid)) :=
  ⟨⟨by decide, by decide, by decide, by decide⟩,
   C5_failed_retries_no_commit defaultConfig stC5 200 "red" 500 [] noneOracle
     ⟨2, 0, some 0⟩ (by decide) (by decide) (by decide) (by decide)⟩

/-- Witness for the amended C6: a concrete failed call (all attempts raise)
records no Membase event, and a concrete successful call records exactly
the payout event. -/
theorem C6_failure_paths_unlogged_witness :
    ((trigger_bounty defaultConfig (initialState 0) 0 "red" 500 []
        noneOracle).1.success = false ∧
     (trigger_bounty defaultConfig (initialState 0) 0 "red" 500 []
        goodOracle).1.success = true ∧
     defaultConfig.membase_enabled = true) ∧
    ((trigger_bounty defaultConfig (initialState 0) 0 "red" 500 []
        noneOracle).2.membase_events = (initialState 0).membase_events ∧
     (trigger_bounty defaultConfig (initialState 0) 0 "red" 500 []
        goodOracle).2.membase_events =
       (initialState 0).membase_events ++
         [⟨"payout", "red",
           some (trigger_bounty defaultConfig (initialState 0) 0 "red" 500 []
             goodOracle).1.bounty_paid,
           some (trigger_bounty defaultConfig (initialState 0) 0 "red" 500 []
             goodOracle).1.tx_hash⟩]) :=
  ⟨⟨by decide, by decide, rfl⟩,
   C6_failure_paths_unlogged defaultConfig defaultConfig (initialState 0) (initialState 0)
     0 0 "red" "red" 500 500 [] [] noneOracle goodOracle
     (by decide) (by decide) rfl⟩

/-- Witness for C10 at a concrete 1000-record state and a successful
500-token payout. -/
theorem C10_stats_cover_truncated_history_witness :
    (stC10.bounty_history.length = 1000 ∧
     (trigger_bounty defaultConfig stC10 0 "red" 500 [] goodOracle).1.success = true) ∧
    ((trigger_bounty defaultConfig stC10 0 "red" 500 [] goodOracle).2.bounty_history =
       stC10.bounty_history.drop 1 ++
         [⟨"red", (trigger_bounty defaultConfig stC10 0 "red" 500 [] goodOracle).1.bounty_paid,
           (trigger_bounty defaultConfig stC10 0 "red" 500 [] goodOracle).1.tx_hash, 0, []⟩] ∧
     (get_statistics defaultConfig
       (trigger_bounty defaultConfig stC10 0 "red" 500 [] goodOracle).2).total_bounties_paid =
       1000 ∧
     (get_statistics defaultConfig
       (trigger_bounty defaultConfig stC10 0 "red" 500 [] goodOracle).2).total_bounty_amount =
       ((stC10.bounty_history.drop 1).map (fun b => b.bounty_amount)).sum +
         (trigger_bounty defaultConfig stC10 0 "red" 500 [] goodOracle).1.bounty_paid ∧
     (get_statistics defaultConfig
       (trigger_bounty defaultConfig stC10 0 "red" 500 [] goodOracle).2).daily_bounty_total =
       (reset_daily_tracking stC10 0).daily_bounty_total +
         (trigger_bounty defaultConfig stC10 0 "red" 500 [] goodOracle).1.bounty_paid) :=
  ⟨⟨by simp [stC10, initialState], by decide⟩,
   C10_stats_cover_truncated_history defaultConfig stC10 0 "red" 500 [] goodOracle
     (by simp [stC10, initialState]) (by decide)⟩

theorem health_probe_step_events (cache : HealthCache) (now : Int)
    (probe : HealthOutcome) :
    (health_probe_step cache now probe).2.2 = [NetEvent.healthGet] := by
  unfold health_probe_step
  split <;> rfl

/-- With a fresh (or expired) cache, `check_midnight_health` performs one
real probe. -/
theorem check_midnight_health_fresh (cache : HealthCache) (now : Int)
    (probe : HealthOutcome) (hlc : cache.last_check = none) :
    check_midnight_health cache now probe = health_probe_step cache now probe := by
  unfold check_midnight_health
  rw [hlc]

/-- With a young cache asserting a healthy, initialized service,
`submit_proof` goes straight to the retry loop: no health probe, no
initialization, the result and trace are the loop's. -/
theorem submit_proof_cached_healthy (env : MidnightEnv) (cache : HealthCache)
    (aid : String) (risk threshold : Int) (mr : Nat) (t : Int) (addr : String)
    (hsim : env.simulation_mode = false) (hge : threshold ≤ risk)
    (hlc : cache.last_check = some t) (httl : env.now - t < cache.cache_ttl)
    (hhl : cache.is_healthy = true) (haddr : cache.contract_address = some addr) :
    (submit_proof env cache aid risk threshold mr).1 =
      (submit_loop aid env.submit_outcomes env.jitter mr 0 mr none).1 ∧
    (submit_proof env cache aid risk threshold mr).2 =
      (submit_loop aid env.submit_outcomes env.jitter mr 0 mr none).2 := by
  have hch : check_midnight_health cache env.now env.health_probe =
      (⟨true, true, some addr, none⟩, cache, []) := by
    unfold check_midnight_health
    rw [hlc]
    dsimp only
    rw [if_pos httl, hhl, haddr]
    rfl
  constructor <;>
    (unfold submit_proof
     rw [if_neg (by omega), if_neg (by simp [hsim]), hch]
     dsimp only
     rw [if_neg (by decide)]
     rfl)

/-- A retryable outcome (5xx or exception) on a non-final attempt: the loop
records the POST, sleeps `base * 2 ^ attempt + jitter`, and moves to the
next attempt with an updated `last_error`. -/
theorem submit_loop_retry_step (aid : String) (outs : Nat → AttemptOutcome)
    (jit : Nat → ℚ) (M attempt r : Nat) (le : Option String) (rem : Nat)
    (hrem : rem = r + 2)
    (hre : retryableOutcome (outs attempt) = true) :
    ∃ le2, submit_loop aid outs jit M attempt rem le =
      ((submit_loop aid outs jit M (attempt + 1) (r + 1) le2).1,
       .submitPost ::
         .sleepFor (sleep_delay RETRY_DELAY_BASE attempt (jit attempt)) ::
         (submit_loop aid outs jit M (attempt + 1) (r + 1) le2).2) := by
  subst hrem
  rcases houts : outs attempt with ⟨s, b, d⟩ | m
  · have hs : 500 ≤ s := by
      have := hre
      rw [houts] at this
      simpa [retryableOutcome] using this
    refine ⟨some ("Server error: HTTP " ++ toString s), ?_⟩
    rw [submit_loop, houts]
    dsimp only
    rw [if_neg (by omega), if_neg (by omega), if_pos hs]
  · refine ⟨some m, ?_⟩
    rw [submit_loop, houts]

/-- A retryable outcome on the final attempt: the loop records the POST and
returns the exhaustion failure. -/
theorem submit_loop_last_retryable (aid : String) (outs : Nat → AttemptOutcome)
    (jit : Nat → ℚ) (M attempt : Nat) (le : Option String) (rem : Nat)
    (hrem : rem = 1)
    (hre : retryableOutcome (outs attempt) = true) :
    (submit_loop aid outs jit M attempt rem le).1.success = false ∧
    (submit_loop aid outs jit M attempt rem le).2 = [.submitPost] := by
  subst hrem
  rcases houts : outs attempt with ⟨s, b, d⟩ | m
  · have hs : 500 ≤ s := by
      have := hre
      rw [houts] at this
      simpa [retryableOutcome] using this
    constructor <;>
      (rw [submit_loop, houts]
       dsimp only
       rw [if_neg (by omega), if_neg (by omega), if_pos hs])
  · constructor <;> rw [submit_loop, houts]

/-- An HTTP 400 response terminates the loop at once with the response's
`detail` as the error, regardless of remaining attempts. -/
theorem submit_loop_400 (aid : String) (outs : Nat → AttemptOutcome)
    (jit : Nat → ℚ) (M attempt r : Nat) (le : Option String) (rem : Nat)
    (hrem : rem = r + 1) (b : SubmitBody) (d : Option String)
    (houts : outs attempt = .resp 400 b d) :
    submit_loop aid outs jit M attempt rem le =
      (⟨false, none, none, none, some (d.getD "HTTP 400")⟩, [.submitPost]) := by
  subst hrem
  rw [submit_loop, houts]
  dsimp only
  rw [if_neg (by omega), if_pos rfl]

/-- A 200 response carrying `success` terminates the loop with success and
the transaction id (or its deterministic fallback). -/
theorem submit_loop_200 (aid : String) (outs : Nat → AttemptOutcome)
    (jit : Nat → ℚ) (M attempt r : Nat) (le : Option String) (b : SubmitBody)
    (d : Option String) (houts : outs attempt = .resp 200 b d)
    (hb : b.success = true) :
    submit_loop aid outs jit M attempt (r + 1) le =
      (⟨true, some (proofHashOf aid b.transaction_id),
        some (proofHashOf aid b.transaction_id), b.block_height, none⟩,
       [.submitPost]) := by
  rw [submit_loop, houts]
  dsimp only
  rw [if_pos rfl, hb, if_pos rfl]

/-- **C7.**  `submit_proof` with `risk_score < threshold` fails immediately
with the descriptive error naming the score and the threshold, performing
no network request at all (empty trace); with `risk_score ≥ threshold` (in
the live, non-simulation configuration, no cached health result) it
proceeds toward submission — the first network event is the health probe
gating the submission pipeline. -/
theorem C7_threshold_gate (env env2 : MidnightEnv) (cache cache2 : HealthCache)
    (aid aid2 : String) (risk threshold risk2 threshold2 : Int) (mr mr2 : Nat)
    (hlt : risk < threshold)
    (hge : threshold2 ≤ risk2)
    (hsim : env2.simulation_mode = false)
    (hcache : cache2.last_check = none) :
    submit_proof env cache aid risk threshold mr =
      (⟨false, none, none, none,
        some ("Risk score " ++ toString risk ++ " is below threshold " ++
          toString threshold)⟩, []) ∧
    (submit_proof env2 cache2 aid2 risk2 threshold2 mr2).2.head? =
      some NetEvent.healthGet := by
  constructor
  · unfold submit_proof
    rw [if_pos hlt]
  · unfold submit_proof
    rw [if_neg (by omega), if_neg (by simp [hsim]),
      check_midnight_health_fresh cache2 env2.now env2.health_probe hcache]
    dsimp only
    split_ifs with hh hinit
    · rw [health_probe_step_events]
      rfl
    · cases env2.init_outcome <;> (dsimp only; rw [health_probe_step_events]; rfl)
    · dsimp only
      rw [health_probe_step_events]
      rfl

/-- Witness for C7: `submit(risk=85, threshold=90)` fails at once with the
descriptive error and no network traffic; `submit(risk=95, threshold=90)`
opens with the health probe. -/
theorem C7_threshold_gate_witness :
    ((85 : Int) < 90 ∧ (90 : Int) ≤ 95 ∧ envC7.simulation_mode = false ∧
     cacheC7.last_check = none) ∧
    (submit_proof envC7 cacheC7 "a" 85 90 3 =
      (⟨false, none, none, none,
        some ("Risk score " ++ toString (85 : Int) ++ " is below threshold " ++
          toString (90 : Int))⟩, []) ∧
     (submit_proof envC7 cacheC7 "a" 95 90 3).2.head? = some NetEvent.healthGet) :=
  ⟨⟨by decide, by decide, rfl, rfl⟩,
   C7_threshold_gate envC7 envC7 cacheC7 cacheC7 "a" "a" 85 90 95 90 3 3
     (by decide) (by decide) rfl rfl⟩

/-- **C8 (counterexample).**  The claim says every 4xx response terminates
the call immediately with failure and is never retried.  Concrete
refutation: the first attempt returns HTTP 404, yet the call is retried —
a second POST is made and the overall call succeeds. -/
theorem C8_counterexample :
    envC8.submit_outcomes 0 = .resp 404 ⟨false, none, none, none, none⟩ none ∧
    (submit_proof envC8 cacheC8 "a" 95 90 3).1.success = true ∧
    countSubmits (submit_proof envC8 cacheC8 "a" 95 90 3).2 = 2 := by
  refine ⟨rfl, ?_, ?_⟩ <;> decide

/-- **C8 (amended).**  In `submit_proof`'s retry loop, HTTP **400** (not
every 4xx: other client statuses fall into the "unexpected status" branch
and are retried) terminates the call immediately with the response detail
and is never retried — if the attempts before the 400 were retryable (5xx
or network errors), exactly `k+1` POSTs are made and each retry slept
`RETRY_DELAY_BASE * 2 ^ attempt + jitter`; and when all 3 attempts hit
retryable errors the call fails after exactly 3 POSTs. -/
theorem C8_retry_policy (env env2 : MidnightEnv) (cache cache2 : HealthCache)
    (aid aid2 : String) (risk threshold risk2 threshold2 : Int)
    (t t2 : Int) (addr addr2 : String) (k : Nat) (b : SubmitBody) (d : Option String)
    (hsim : env.simulation_mode = false) (hge : threshold ≤ risk)
    (hlc : cache.last_check = some t) (httl : env.now - t < cache.cache_ttl)
    (hhl : cache.is_healthy = true) (haddr : cache.contract_address = some addr)
    (hk : k < 3)
    (hretry : ∀ i, i < k → retryableOutcome (env.submit_outcomes i) = true)
    (h400 : env.submit_outcomes k = .resp 400 b d)
    (hsim2 : env2.simulation_mode = false) (hge2 : threshold2 ≤ risk2)
    (hlc2 : cache2.last_check = some t2) (httl2 : env2.now - t2 < cache2.cache_ttl)
    (hhl2 : cache2.is_healthy = true) (haddr2 : cache2.contract_address = some addr2)
    (hretry2 : ∀ i, i < 3 → retryableOutcome (env2.submit_outcomes i) = true) :
    (submit_proof env cache aid risk threshold 3).1 =
      ⟨false, none, none, none, some (d.getD "HTTP 400")⟩ ∧
    countSubmits (submit_proof env cache aid risk threshold 3).2 = k + 1 ∧
    sleepsOf (submit_proof env cache aid risk threshold 3).2 =
      (List.range k).map (fun i => sleep_delay RETRY_DELAY_BASE i (env.jitter i)) ∧
    (submit_proof env2 cache2 aid2 risk2 threshold2 3).1.success = false ∧
    countSubmits (submit_proof env2 cache2 aid2 risk2 threshold2 3).2 = 3 := by
  obtain ⟨hp1, hp2⟩ := submit_proof_cached_healthy env cache aid risk threshold 3
    t addr hsim hge hlc httl hhl haddr
  obtain ⟨hq1, hq2⟩ := submit_proof_cached_healthy env2 cache2 aid2 risk2 threshold2 3
    t2 addr2 hsim2 hge2 hlc2 httl2 hhl2 haddr2
  rw [hp1, hp2, hq1, hq2]
  obtain ⟨leA, hstepA⟩ := submit_loop_retry_step aid2 env2.submit_outcomes env2.jitter
    3 0 1 none 3 rfl (hretry2 0 (by omega))
  obtain ⟨leB, hstepB⟩ := submit_loop_retry_step aid2 env2.submit_outcomes env2.jitter
    3 (0 + 1) 0 leA (1 + 1) rfl (hretry2 (0 + 1) (by omega))
  have hlast := submit_loop_last_retryable aid2 env2.submit_outcomes env2.jitter
    3 (0 + 1 + 1) leB (0 + 1) rfl (hretry2 (0 + 1 + 1) (by omega))
  have hscen2a : (submit_loop aid2 env2.submit_outcomes env2.jitter 3 0 3 none).1.success =
      false := by
    rw [hstepA, hstepB]
    exact hlast.1
  have hscen2b : countSubmits
      (submit_loop aid2 env2.submit_outcomes env2.jitter 3 0 3 none).2 = 3 := by
    rw [hstepA, hstepB, hlast.2]
    rfl
  interval_cases k
  · rw [submit_loop_400 aid env.submit_outcomes env.jitter 3 0 2 none 3 rfl b d h400]
    exact ⟨rfl, rfl, rfl, hscen2a, hscen2b⟩
  · obtain ⟨le0, hstep0⟩ := submit_loop_retry_step aid env.submit_outcomes env.jitter
      3 0 1 none 3 rfl (hretry 0 (by omega))
    rw [hstep0, submit_loop_400 aid env.submit_outcomes env.jitter 3 (0 + 1) 1 le0
      (1 + 1) rfl b d h400]
    exact ⟨rfl, rfl, rfl, hscen2a, hscen2b⟩
  · obtain ⟨le0, hstep0⟩ := submit_loop_retry_step aid env.submit_outcomes env.jitter
      3 0 1 none 3 rfl (hretry 0 (by omega))
    obtain ⟨le1, hstep1⟩ := submit_loop_retry_step aid env.submit_outcomes env.jitter
      3 (0 + 1) 0 le0 (1 + 1) rfl (hretry (0 + 1) (by omega))
    rw [hstep0, hstep1, submit_loop_400 aid env.submit_outcomes env.jitter 3 (0 + 1 + 1) 0
      le1 (0 + 1) rfl b d h400]
    exact ⟨rfl, rfl, rfl, hscen2a, hscen2b⟩

/-- Witness for the amended C8: a 503 then a 400 gives exactly two POSTs,
one back-off sleep, and the 400 detail as the error; three timeouts give a
failed call after exactly three POSTs. -/
theorem C8_retry_policy_witness :
    ((1 : Nat) < 3 ∧
     (∀ i, i < 1 → retryableOutcome (envC8a.submit_outcomes i) = true) ∧
     envC8a.submit_outcomes 1 =
       .resp 400 ⟨false, none, none, none, none⟩ (some "bad witness") ∧
     (∀ i, i < 3 → retryableOutcome (envC8b.submit_outcomes i) = true)) ∧
    ((submit_proof envC8a cacheC8 "a" 95 90 3).1 =
       ⟨false, none, none, none, some ((some "bad witness").getD "HTTP 400")⟩ ∧
     countSubmits (submit_proof envC8a cacheC8 "a" 95 90 3).2 = 1 + 1 ∧
     sleepsOf (submit_proof envC8a cacheC8 "a" 95 90 3).2 =
       (List.range 1).map (fun i => sleep_delay RETRY_DELAY_BASE i (envC8a.jitter i)) ∧
     (submit_proof envC8b cacheC8 "a" 95 90 3).1.success = false ∧
     countSubmits (submit_proof envC8b cacheC8 "a" 95 90 3).2 = 3) :=
  ⟨⟨by decide, by decide, rfl, by decide⟩,
   C8_retry_policy envC8a envC8b cacheC8 cacheC8 "a" "a" 95 90 95 90 0 0 "0xc" "0xc"
     1 ⟨false, none, none, none, none⟩ (some "bad witness")
     rfl (by decide) rfl (by decide) rfl rfl
     (by decide) (by decide) rfl
     rfl (by decide) rfl (by decide) rfl rfl
     (by decide)⟩

end Guard
